/-
  Verification development for the OdyCAnalyzer analysis-orchestration
  pipeline.

  The definitions below are a shallow embedding of the TypeScript sources:
    - server/services/agent-orchestrator.ts        (deterministic orchestrator, namespace Det)
    - the AI orchestrator with deterministic fallbacks (namespace Aio)
    - server/services/agent-orchestrator-broken.ts (namespace Broken)
    - server/services/ai-service.ts                (namespace Gateway)
    - DatabaseStorage.updateAnalysisRunStatus / completeAnalysisRun
      (run-record write semantics, namespace RunRecord)

  Modelling conventions:
    - JavaScript strings are Lean Strings (ASCII-faithful; toLowerCase /
      toUpperCase are modelled by Char.toLower / Char.toUpper).
    - JS floating-point divisions of integer counts are modelled as exact
      rationals (the counts involved are small, so the JS value is the
      rounded rational; sign/bounds facts transfer).
    - External collaborators (the two model providers, the fallible
      renderers) are oracles: their outcomes are inputs of the model.
    - Persistence-layer writes are modelled as reliable (the failure
      sources modelled are the ones the code's control flow branches on:
      missing run/file, empty message set, unknown agent type, gateway
      failures, renderer failures, and the user-perspective agent's
      persona-bucket runtime error).
-/
import Mathlib

namespace Odyc

/-- One chat message (shared/schema `ChatMessage`: role, content, optional topic). -/
structure Msg where
  role : String
  content : String
  topic : Option String
deriving Repr, DecidableEq

/-- One audit-log entry as written through `createAgentLog`
    (`agentId` is null for orchestrator-level messages). -/
structure LogEntry where
  agentId : Option Nat
  level : String
  message : String
deriving Repr, DecidableEq

/-- Per-agent configuration object (the fields the five agents read). -/
structure AgentConfig where
  minMessagesPerSection : Option Nat
  requirementTypes : Option (List String)
  personaTypes : Option (List String)
  gapTypes : Option (List String)
deriving Repr, DecidableEq

/-- The empty configuration (`{}` in the source). -/
def AgentConfig.empty : AgentConfig := ⟨none, none, none, none⟩

/-- An agent row (shared/schema `Agent`): id, name, type, enabled flag, configuration. -/
structure AgentRec where
  id : Nat
  name : String
  type : String
  enabled : Bool
  configuration : AgentConfig
deriving Repr, DecidableEq

/- ----------------------------------------------------------------- -/
/- String utilities mirroring the JavaScript operations used.        -/
/- ----------------------------------------------------------------- -/

/-- JS `String.prototype.toLowerCase` (ASCII). -/
def jsToLower (s : String) : String := String.mk (s.toList.map Char.toLower)

/-- The whitespace JS `String.prototype.trim` strips (ASCII subset). -/
def isTrimWs (c : Char) : Bool :=
  c == ' ' || c == '\t' || c == '\n' || c == '\r' || c == '\x0b' || c == '\x0c'

/-- JS `String.prototype.trim`. -/
def jsTrim (s : String) : String :=
  String.mk (((s.toList.dropWhile isTrimWs).reverse.dropWhile isTrimWs).reverse)

/-- Does `needle` occur contiguously inside `hay`? -/
def listIsInfix (needle hay : List Char) : Bool :=
  match hay with
  | [] => needle.isEmpty
  | _ :: rest => List.isPrefixOf needle hay || listIsInfix needle rest

/-- JS `haystack.includes(needle)`. -/
def jsIncludes (haystack needle : String) : Bool :=
  listIsInfix needle.toList haystack.toList

/-- JS `keywords.some(k => s.includes(k))`. -/
def containsAnyKeyword (kws : List String) (s : String) : Bool :=
  kws.any (fun k => jsIncludes s k)

/-- Is this character one of the sentence delimiters of the regex `[.!?]+`? -/
def isSentenceDelim (c : Char) : Bool := c == '.' || c == '!' || c == '?'

/-- JS `s.split(/[.!?]+/)` on the character list: split on maximal runs of
    delimiters, keeping leading/trailing empty fields exactly as JS does. -/
def splitDelimRuns (isD : Char → Bool) : List Char → List (List Char)
  | [] => [[]]
  | c :: rest =>
    let r := splitDelimRuns isD rest
    if isD c then
      match rest with
      | c2 :: _ => if isD c2 then r else [] :: r
      | [] => [] :: r
    else
      match r with
      | f :: fs => (c :: f) :: fs
      | [] => [[c]]

/-- JS `content.split(/[.!?]+/)`. -/
def splitSentences (s : String) : List String :=
  (splitDelimRuns isSentenceDelim s.toList).map (fun l => String.mk l)

/-- JS `topic.charAt(0).toUpperCase() + topic.slice(1)`. -/
def capFirst (s : String) : String :=
  match s.toList with
  | [] => ""
  | c :: rest => String.mk (c.toUpper :: rest)

/-- JS `message.topic || 'general'` (null, undefined and the empty string
    are falsy). -/
def jsTopicKey (m : Msg) : String :=
  match m.topic with
  | none => "general"
  | some t => if t = "" then "general" else t

/-- JS `s.substring(0, n)`. -/
def jsSubstringTo (s : String) (n : Nat) : String := String.mk (s.toList.take n)

namespace Det

/- ----------------------------------------------------------------- -/
/- agent-orchestrator.ts: the deterministic agents.                  -/
/- ----------------------------------------------------------------- -/

/-- `groupMessagesByTopic` / `groupMessagesByRole` helper: append `m` to the
    group keyed `k`, creating it at the end if absent (JS object keys keep
    insertion order). -/
def insertGrouped (k : String) (m : Msg) : List (String × List Msg) → List (String × List Msg)
  | [] => [(k, [m])]
  | (k', ms) :: rest =>
    if k' = k then (k', ms ++ [m]) :: rest else (k', ms) :: insertGrouped k m rest

/-- `AgentOrchestrator.groupMessagesByTopic`. -/
def groupMessagesByTopic (msgs : List Msg) : List (String × List Msg) :=
  msgs.foldl (fun g m => insertGrouped (jsTopicKey m) m g) []

/-- `AgentOrchestrator.groupMessagesByRole`. -/
def groupMessagesByRole (msgs : List Msg) : List (String × List Msg) :=
  msgs.foldl (fun g m => insertGrouped m.role m g) []

/-- Assoc lookup on a grouped list (JS `groups[topic]`; keys are unique by
    construction, so first-match lookup is the JS property read). -/
def lookupGroup : List (String × List Msg) → String → Option (List Msg)
  | [], _ => none
  | (k', ms) :: rest, k => if k' = k then some ms else lookupGroup rest k

/-- `config.minMessagesPerSection || 3` (`0` is falsy in JS). -/
def minPerSection (cfg : AgentConfig) : Nat :=
  match cfg.minMessagesPerSection with
  | some n => if n = 0 then 3 else n
  | none => 3

/-- Result object of the deterministic Structure agent. -/
structure StructureResult where
  sections : List String
  topicGroups : List String
  messageCount : Nat
  topicCount : Nat
deriving Repr, DecidableEq

/-- The loop of `runStructureAgent`: one pushed section (and one info log)
    per topic group meeting the threshold, in group order. -/
def topicSectionsFold (agentId : Nat) (minN : Nat)
    (groups : List (String × List Msg)) : List String × List LogEntry :=
  groups.foldl
    (fun acc g =>
      if minN ≤ g.2.length then
        (acc.1 ++ [capFirst g.1],
         acc.2 ++ [⟨some agentId, "info",
           "Identified section: " ++ g.1 ++ " (" ++ toString g.2.length ++ " messages)"⟩])
      else acc)
    ([], [])

/-- `AgentOrchestrator.runStructureAgent` (deterministic version): returns
    the result object and the log entries it writes, in order. -/
def runStructureAgent (msgs : List Msg) (cfg : AgentConfig) (agentId : Nat) :
    StructureResult × List LogEntry :=
  let l0 : LogEntry :=
    ⟨some agentId, "info", "Processing " ++ toString msgs.length ++ " messages"⟩
  let groups := groupMessagesByTopic msgs
  let ts := topicSectionsFold agentId (minPerSection cfg) groups
  let sections := ["Executive Summary", "Overview"] ++ ts.1 ++ ["Next Steps", "Conclusion"]
  let lEnd : LogEntry :=
    ⟨some agentId, "info",
     "Generated document outline with " ++ toString sections.length ++ " sections"⟩
  (⟨sections, groups.map (fun g => g.1), msgs.length, groups.length⟩,
   [l0] ++ ts.2 ++ [lEnd])

/-- The requirement-indicating keywords of `runRequirementsAgent`. -/
def requirementKeywords : List String :=
  ["should", "must", "require", "need", "implement", "support",
   "allow", "enable", "provide", "ensure", "guarantee"]

/-- Requirement extraction of `runRequirementsAgent`: for each message whose
    lowercased content contains a keyword, every sentence (split on `[.!?]+`)
    whose lowercased text contains a keyword is pushed, trimmed. -/
def extractRequirements (msgs : List Msg) : List String :=
  msgs.foldl
    (fun acc m =>
      let content := jsToLower m.content
      if containsAnyKeyword requirementKeywords content then
        acc ++ (splitSentences m.content).foldl
          (fun a s =>
            if containsAnyKeyword requirementKeywords (jsToLower s) then
              a ++ [jsTrim s]
            else a)
          []
      else acc)
    []

/-- Result object of the deterministic Requirements agent. -/
structure RequirementsResult where
  requirements : List String
  requirementTypes : List String
  totalMessages : Nat
  requirementDensity : ℚ
deriving Repr, DecidableEq

/-- `requirements.length / messages.length` as an exact rational. -/
def requirementDensity (msgs : List Msg) : ℚ :=
  ((extractRequirements msgs).length : ℚ) / (msgs.length : ℚ)

/-- `AgentOrchestrator.runRequirementsAgent` (deterministic version). -/
def runRequirementsAgent (msgs : List Msg) (cfg : AgentConfig) (agentId : Nat) :
    RequirementsResult × List LogEntry :=
  let reqs := extractRequirements msgs
  let types :=
    match cfg.requirementTypes with
    | some l => l
    | none => ["functional", "non-functional", "technical"]
  (⟨reqs.take 20, types, msgs.length, requirementDensity msgs⟩,
   [⟨some agentId, "info",
     "Extracted " ++ toString reqs.length ++ " potential requirements"⟩])

/-- The fixed persona keyword map of `runUserPerspectiveAgent`. -/
def userKeywords : List (String × List String) :=
  [("developer", ["code", "implementation", "technical", "api", "debug", "maintain"]),
   ("researcher", ["analyze", "study", "investigate", "data", "findings", "methodology"]),
   ("project_manager", ["timeline", "delivery", "stakeholder", "progress", "milestone", "resource"])]

/-- JS `personas[type] = []`: overwrite if present, append the key otherwise. -/
def setKeyEmpty (k : String) : List (String × List String) → List (String × List String)
  | [] => [(k, [])]
  | (k', v) :: rest => if k' = k then (k', []) :: rest else (k', v) :: setKeyEmpty k rest

/-- JS `personas[persona].push(v)`: `none` models the TypeError thrown when
    the key is absent (persona not listed in `config.personaTypes`). -/
def pushKey (k : String) (v : String) : List (String × List String) → Option (List (String × List String))
  | [] => none
  | (k', vs) :: rest =>
    if k' = k then some ((k', vs ++ [v]) :: rest)
    else (pushKey k v rest).map (fun r => (k', vs) :: r)

/-- The persona-bucket loop body of `runUserPerspectiveAgent` for one message. -/
def categorizeMsg (personas : List (String × List String)) (content full : String) :
    Option (List (String × List String)) :=
  userKeywords.foldlM
    (fun ps kv =>
      if kv.2.any (fun kw => jsIncludes content kw) then
        pushKey kv.1 (jsSubstringTo full 100 ++ "...") ps
      else some ps)
    personas

/-- The message loop of `runUserPerspectiveAgent`: collects the user-needs
    mentions and fills the persona buckets; `none` on the TypeError. -/
def upScan (ups : List String) (personas : List (String × List String)) :
    List Msg → Option (List String × List (String × List String))
  | [] => some (ups, personas)
  | m :: rest =>
    let content := jsToLower m.content
    let ups' :=
      if jsIncludes content "user" || jsIncludes content "need" || jsIncludes content "want" then
        ups ++ [m.content]
      else ups
    match categorizeMsg personas content m.content with
    | none => none
    | some ps' => upScan ups' ps' rest

/-- One entry of the `identifiedPersonas` list. -/
structure PersonaSummary where
  persona : String
  messageCount : Nat
  examples : List String
deriving Repr, DecidableEq

/-- Result object of the deterministic User-Perspective agent. -/
structure UserPerspectiveResult where
  userPerspectives : List String
  personas : List PersonaSummary
  personaTypes : List String
  totalUserReferences : Nat
deriving Repr, DecidableEq

/-- `AgentOrchestrator.runUserPerspectiveAgent` (deterministic version);
    `none` models the uncaught TypeError on a persona bucket missing from
    `config.personaTypes`. -/
def runUserPerspectiveAgent (msgs : List Msg) (cfg : AgentConfig) (agentId : Nat) :
    Option (UserPerspectiveResult × List LogEntry) :=
  let personaTypes := cfg.personaTypes.getD ["developer", "researcher", "project_manager"]
  let init := personaTypes.foldl (fun ps t => setKeyEmpty t ps) []
  match upScan [] init msgs with
  | none => none
  | some (ups, personas) =>
    let identified := (personas.filter (fun p => 0 < p.2.length)).map
      (fun p => PersonaSummary.mk p.1 p.2.length (p.2.take 3))
    some (⟨ups.take 15, identified, personaTypes, ups.length⟩,
      [⟨some agentId, "info",
        "Identified " ++ toString identified.length ++ " user personas and " ++
        toString ups.length ++ " user needs"⟩])

/-- The gap indicators of `runDocumentationAgent`. -/
def gapIndicators : List String :=
  ["unclear", "missing", "incomplete", "undefined", "not specified",
   "?", "how", "what", "why", "when", "where", "todo", "fixme"]

/-- Result object of the deterministic Documentation agent. -/
structure DocumentationResult where
  documentationGaps : List String
  gapTypes : List String
  totalMessages : Nat
  gapDensity : ℚ
deriving Repr, DecidableEq

/-- `AgentOrchestrator.runDocumentationAgent` (deterministic version). -/
def runDocumentationAgent (msgs : List Msg) (cfg : AgentConfig) (agentId : Nat) :
    DocumentationResult × List LogEntry :=
  let gaps := msgs.foldl
    (fun acc m =>
      if containsAnyKeyword gapIndicators (jsToLower m.content) then acc ++ [m.content]
      else acc)
    []
  let types :=
    match cfg.gapTypes with
    | some l => l
    | none => ["missing_context", "incomplete_specs", "outdated_info"]
  (⟨gaps.take 15, types, msgs.length, (gaps.length : ℚ) / (msgs.length : ℚ)⟩,
   [⟨some agentId, "info",
     "Identified " ++ toString gaps.length ++ " potential documentation gaps"⟩])

/-- JS `Math.round` (half away from zero is JS only for positives; JS rounds
    half toward +infinity, which is floor (x + 1/2)). -/
def jsRound (q : ℚ) : ℤ := Int.floor (q + 1 / 2)

/-- The stop-word set of `calculateWordFrequency`. -/
def commonWords : List String :=
  ["the", "a", "an", "and", "or", "but", "in", "on", "at", "to", "for", "of",
   "with", "by", "is", "are", "was", "were", "be", "been", "have", "has",
   "had", "do", "does", "did", "will", "would", "could", "should", "may",
   "might", "can", "this", "that", "these", "those"]

/-- `\w` of the regex `[^\w\s]`. -/
def isWordChar (c : Char) : Bool := c.isAlphanum || c == '_'

/-- `\s` as used by the `replace`/`split` pair (ASCII whitespace). -/
def isJsWs (c : Char) : Bool := c == ' ' || c == '\t' || c == '\n' || c == '\r'

/-- `content.toLowerCase().replace(/[^\w\s]/g, ' ').split(/\s+/)` followed by
    the length/stop-word filter of `calculateWordFrequency`. -/
def extractWords (s : String) : List String :=
  let cleaned := (jsToLower s).toList.map (fun c => if isWordChar c || isJsWs c then c else ' ')
  ((splitDelimRuns isJsWs cleaned).map (fun l => String.mk l)).filter
    (fun w => 3 < w.length && !(commonWords.contains w))

/-- `frequency[word] = (frequency[word] || 0) + 1` on an insertion-ordered map. -/
def bumpWord (k : String) : List (String × Nat) → List (String × Nat)
  | [] => [(k, 1)]
  | (k', n) :: rest => if k' = k then (k', n + 1) :: rest else (k', n) :: bumpWord k rest

/-- `AgentOrchestrator.calculateWordFrequency`. -/
def calculateWordFrequency (msgs : List Msg) : List (String × Nat) :=
  msgs.foldl (fun f m => (extractWords m.content).foldl (fun f w => bumpWord w f) f) []

/-- `messageStats` of the Meta agent. -/
structure MetaStats where
  total : Nat
  byRole : List (String × List Msg)
  topicCount : Nat
  messageRatio : ℚ
deriving Repr, DecidableEq

/-- Result object of the deterministic Meta agent. -/
structure MetaResult where
  metaInsights : List String
  messageStats : MetaStats
  topWords : List String
  analysisQuality : String
deriving Repr, DecidableEq

/-- `AgentOrchestrator.runMetaAgent` (deterministic version). -/
def runMetaAgent (msgs : List Msg) (_cfg : AgentConfig) (agentId : Nat) :
    MetaResult × List LogEntry :=
  let byRole := groupMessagesByRole msgs
  let topicGroups := groupMessagesByTopic msgs
  let userMessages := ((lookupGroup byRole "user").getD []).length
  let assistantMessages := ((lookupGroup byRole "assistant").getD []).length
  let ratio : ℚ :=
    (userMessages : ℚ) / ((if assistantMessages = 0 then 1 else assistantMessages : ℕ) : ℚ)
  let ins1 : List String :=
    if 2 < ratio then
      ["Heavy user input - may indicate complex requirements gathering phase"]
    else if ratio < 1 / 2 then
      ["Heavy assistant output - may indicate explanation or documentation phase"]
    else
      ["Balanced conversation - good collaborative discussion"]
  let topicCount := topicGroups.length
  let ins2 : List String :=
    ins1 ++
      (if (msgs.length : ℚ) * (3 / 10) < (topicCount : ℚ) then
        ["High topic diversity - broad scope discussion"]
      else if (topicCount : ℚ) < (msgs.length : ℚ) * (1 / 10) then
        ["Low topic diversity - focused discussion"]
      else [])
  let sorted := (calculateWordFrequency msgs).mergeSort (fun a b => b.2 ≤ a.2)
  let topWords := (sorted.take 5).map (fun p => p.1)
  let ins3 := ins2 ++ ["Key recurring themes: " ++ String.mk (List.intercalate (", ".toList) (topWords.map String.toList))]
  (⟨ins3,
    ⟨msgs.length, byRole, topicCount, (jsRound (ratio * 100) : ℚ) / 100⟩,
    topWords,
    if 3 < ins3.length then "comprehensive" else "basic"⟩,
   [⟨some agentId, "info", "Generated " ++ toString ins3.length ++ " meta insights"⟩])

/- ----------------------------------------------------------------- -/
/- agent-orchestrator.ts: dispatch and runAnalysis.                  -/
/- ----------------------------------------------------------------- -/

/-- The heterogeneous per-agent-type result stored in `agentResults`. -/
inductive DetResult where
  | structureR (r : StructureResult)
  | requirementsR (r : RequirementsResult)
  | userPerspectiveR (r : UserPerspectiveResult)
  | documentationR (r : DocumentationResult)
  | metaR (r : MetaResult)
deriving Repr, DecidableEq

/-- The ways `runAnalysis` can throw in this model. -/
inductive OErr where
  | runNotFound
  | fileNotFound
  | noMessages
  | unknownAgentType (t : String)
  | personaTypeError
deriving Repr, DecidableEq

/-- The JS error's `.message`, as the catch block logs it. -/
def OErr.message : OErr → String
  | .runNotFound => "Analysis run not found"
  | .fileNotFound => "File not found"
  | .noMessages => "No messages found in file"
  | .unknownAgentType t => "Unknown agent type: " ++ t
  | .personaTypeError => "Cannot read properties of undefined (reading push)"

/-- `AgentOrchestrator.runAgent`: dispatch on `agent.type`; the default
    branch throws `Unknown agent type`. Returns the result together with the
    log entries the agent writes. -/
def runAgentDet (a : AgentRec) (msgs : List Msg) :
    Except OErr (DetResult × List LogEntry) :=
  let cfg := a.configuration
  if a.type = "structure" then
    let r := runStructureAgent msgs cfg a.id
    .ok (.structureR r.1, r.2)
  else if a.type = "requirements" then
    let r := runRequirementsAgent msgs cfg a.id
    .ok (.requirementsR r.1, r.2)
  else if a.type = "user_perspective" then
    match runUserPerspectiveAgent msgs cfg a.id with
    | some r => .ok (.userPerspectiveR r.1, r.2)
    | none => .error .personaTypeError
  else if a.type = "documentation" then
    let r := runDocumentationAgent msgs cfg a.id
    .ok (.documentationR r.1, r.2)
  else if a.type = "meta" then
    let r := runMetaAgent msgs cfg a.id
    .ok (.metaR r.1, r.2)
  else .error (.unknownAgentType a.type)

/-- What the agent loop of `runAnalysis` produced: stored results, written
    logs, agents whose `lastRunAt` was touched, and the first error if any. -/
structure LoopOut where
  results : List (String × DetResult)
  logs : List LogEntry
  touched : List Nat
  err : Option OErr
deriving Repr, DecidableEq

/-- The `for (const agent of enabledAgents)` loop of `runAnalysis`: each
    iteration logs `Starting`, dispatches, stores the result keyed by the
    agent's type, touches the agent's last-run time, logs `Completed`; a
    throw aborts the remaining iterations. -/
def runAgentsLoop (msgs : List Msg) : List AgentRec → LoopOut
  | [] => ⟨[], [], [], none⟩
  | a :: rest =>
    let startLog : LogEntry := ⟨some a.id, "info", "Starting " ++ a.name⟩
    match runAgentDet a msgs with
    | .error e => ⟨[], [startLog], [], some e⟩
    | .ok (r, agentLogs) =>
      let doneLog : LogEntry := ⟨some a.id, "info", "Completed " ++ a.name⟩
      let tailOut := runAgentsLoop msgs rest
      ⟨(a.type, r) :: tailOut.results,
       startLog :: (agentLogs ++ [doneLog]) ++ tailOut.logs,
       a.id :: tailOut.touched,
       tailOut.err⟩

/-- A write to the run record, as issued by the orchestrator:
    `updateAnalysisRunStatus` (whose optional `results` argument the
    orchestrator never passes, and whose `undefined` value drizzle omits
    from the SET clause) or `completeAnalysisRun` (status `completed`,
    results and completion time together). -/
inductive Write where
  | setStatus (status : String) (results : Option (List (String × DetResult)))
  | complete (results : List (String × DetResult))
deriving Repr, DecidableEq

/-- The status value a write stores into `analysis_runs.status`. -/
def Write.statusOf : Write → String
  | .setStatus s _ => s
  | .complete _ => "completed"

/-- Is this write the `completeAnalysisRun` write (the one storing a result)? -/
def Write.isComplete : Write → Bool
  | .setStatus _ _ => false
  | .complete _ => true

/-- What one `runAnalysis` invocation did, in order. -/
structure Outcome where
  writes : List Write
  logs : List LogEntry
  touched : List Nat
  artifactFormats : List String
  err : Option OErr
deriving Repr, DecidableEq

/-- The environment `runAnalysis` runs against (what the storage returns). -/
structure Env where
  runExists : Bool
  fileExists : Bool
  messages : List Msg
  agents : List AgentRec
deriving Repr

/-- `AgentOrchestrator.runAnalysis` (deterministic orchestrator): the run is
    loaded (missing: throws before the try block, so no status write and no
    log); inside the try block the run is set `running`, the file and the
    non-empty message set are checked, the enabled agents run in order, the
    three outputs are created and the run completed; the catch block sets
    `failed` and logs the error. -/
def runAnalysis (env : Env) : Outcome :=
  if !env.runExists then ⟨[], [], [], [], some .runNotFound⟩
  else
    let w0 : List Write := [.setStatus "running" none]
    let l0 : List LogEntry := [⟨none, "info", "Starting analysis pipeline"⟩]
    if !env.fileExists then
      ⟨w0 ++ [.setStatus "failed" none],
       l0 ++ [⟨none, "error", "Analysis failed: " ++ OErr.message .fileNotFound⟩],
       [], [], some .fileNotFound⟩
    else if env.messages.isEmpty then
      ⟨w0 ++ [.setStatus "failed" none],
       l0 ++ [⟨none, "error", "Analysis failed: " ++ OErr.message .noMessages⟩],
       [], [], some .noMessages⟩
    else
      let enabled := env.agents.filter (fun a => a.enabled)
      let l1 := l0 ++ [⟨none, "info", "Running " ++ toString enabled.length ++ " agents"⟩]
      let lo := runAgentsLoop env.messages enabled
      match lo.err with
      | some e =>
        ⟨w0 ++ [.setStatus "failed" none],
         l1 ++ lo.logs ++ [⟨none, "error", "Analysis failed: " ++ OErr.message e⟩],
         lo.touched, [], some e⟩
      | none =>
        ⟨w0 ++ [.complete lo.results],
         l1 ++ lo.logs ++
           [⟨none, "info", "Generating documentation outputs"⟩,
            ⟨none, "info", "Analysis completed successfully"⟩],
         lo.touched, ["markdown", "html", "json"], none⟩

/-- The run record as far as the claimed invariants observe it. -/
structure RunRecord where
  status : String
  results : Option (List (String × DetResult))
  completedAt : Bool
deriving Repr, DecidableEq

/-- A run is created `pending` with a null result (routes.ts). -/
def initialRun : RunRecord := ⟨"pending", none, false⟩

/-- `DatabaseStorage.updateAnalysisRunStatus` / `completeAnalysisRun` write
    semantics: a plain status write leaves `results` unchanged (drizzle
    drops `undefined` set values); `completeAnalysisRun` sets status,
    results and completion time in one update. -/
def applyWrite (r : RunRecord) : Write → RunRecord
  | .setStatus s res =>
    ⟨s, (match res with | none => r.results | some v => some v), r.completedAt⟩
  | .complete res => ⟨"completed", some res, true⟩

/-- Apply a sequence of writes to a run record. -/
def applyWrites (r : RunRecord) (ws : List Write) : RunRecord :=
  ws.foldl applyWrite r

/-- The statuses a poller can observe for the run, in order: the `pending`
    it is created with, then each status stored by the writes. -/
def observedStatuses (env : Env) : List String :=
  "pending" :: (runAnalysis env).writes.map Write.statusOf

end Det

namespace Gateway

/- ----------------------------------------------------------------- -/
/- ai-service.ts: the Remote Model Gateway.                          -/
/- ----------------------------------------------------------------- -/

/-- The two providers of `AIService`. -/
inductive Provider where
  | openai
  | anthropic
deriving Repr, DecidableEq

/-- The provider name as it appears in result objects. -/
def Provider.name : Provider → String
  | .openai => "openai"
  | .anthropic => "anthropic"

/-- `AIResponse` of ai-service.ts. -/
structure AIResponse where
  content : String
  model : String
  provider : Provider
deriving Repr, DecidableEq

/-- The gateway's environment: which providers are configured (API key
    present at construction) and what a network round-trip to each returns
    (the generated text, or the error the service surfaces). -/
structure AIEnv where
  openaiConfigured : Bool
  anthropicConfigured : Bool
  openaiOutcome : Except String String
  anthropicOutcome : Except String String
deriving Repr

/-- `AIService.callOpenAI`: throws if not configured, otherwise returns the
    round-trip outcome tagged with the fixed model and provider. -/
def callOpenAI (env : AIEnv) : Except String AIResponse :=
  if !env.openaiConfigured then .error "OpenAI API key not configured"
  else
    match env.openaiOutcome with
    | .ok c => .ok ⟨c, "gpt-4", .openai⟩
    | .error e => .error e

/-- `AIService.callAnthropic`. -/
def callAnthropic (env : AIEnv) : Except String AIResponse :=
  if !env.anthropicConfigured then .error "Anthropic API key not configured"
  else
    match env.anthropicOutcome with
    | .ok c => .ok ⟨c, "claude-3-5-sonnet-20241022", .anthropic⟩
    | .error e => .error e

/-- Is the given provider configured in this environment? -/
def configured (env : AIEnv) : Provider → Bool
  | .openai => env.openaiConfigured
  | .anthropic => env.anthropicConfigured

/-- The other provider. -/
def Provider.other : Provider → Provider
  | .openai => .anthropic
  | .anthropic => .openai

/-- Dispatch a raw provider call. -/
def callProvider (env : AIEnv) : Provider → Except String AIResponse
  | .openai => callOpenAI env
  | .anthropic => callAnthropic env

/-- `AIService.smartCall`, instrumented with the list of providers actually
    called, in order. The prompt pair does not influence the modelled
    outcome (the oracle decides it), so it is omitted here. -/
def smartCallT (env : AIEnv) (preferredProvider : Option Provider) :
    Except String AIResponse × List Provider :=
  if preferredProvider == some Provider.openai && env.openaiConfigured then
    match callOpenAI env with
    | .ok r => (.ok r, [.openai])
    | .error e =>
      if env.anthropicConfigured then (callAnthropic env, [.openai, .anthropic])
      else (.error e, [.openai])
  else if preferredProvider == some Provider.anthropic && env.anthropicConfigured then
    match callAnthropic env with
    | .ok r => (.ok r, [.anthropic])
    | .error e =>
      if env.openaiConfigured then (callOpenAI env, [.anthropic, .openai])
      else (.error e, [.anthropic])
  else if env.openaiConfigured then
    match callOpenAI env with
    | .ok r => (.ok r, [.openai])
    | .error e =>
      if env.anthropicConfigured then (callAnthropic env, [.openai, .anthropic])
      else (.error e, [.openai])
  else if env.anthropicConfigured then
    (callAnthropic env, [.anthropic])
  else
    (.error "No AI providers configured", [])

/-- `AIService.smartCall` (result only). -/
def smartCall (env : AIEnv) (preferredProvider : Option Provider) :
    Except String AIResponse :=
  (smartCallT env preferredProvider).1

end Gateway

/- ----------------------------------------------------------------- -/
/- JSON values and JSON.parse, for the AI agents' response handling. -/
/- ----------------------------------------------------------------- -/

/-- A JSON value (what `JSON.parse` produces). -/
inductive Json where
  | nullV
  | boolV (b : Bool)
  | numV (q : ℚ)
  | strV (s : String)
  | arrV (elems : List Json)
  | objV (fields : List (String × Json))
deriving Repr

/-- Skip JSON insignificant whitespace. -/
def jsonSkipWs : List Char → List Char
  | [] => []
  | c :: rest =>
    if c == ' ' || c == '\t' || c == '\n' || c == '\r' then jsonSkipWs rest
    else c :: rest

/-- Hex digit value (digits, then the letter range after lowercasing). -/
def hexVal (c : Char) : Option Nat :=
  if c.isDigit then some (c.toNat - 48)
  else
    let l := c.toLower
    if 'a' ≤ l && l ≤ 'f' then some (l.toNat - 87) else none

/-- Parse the body of a JSON string literal (after the opening quote). -/
def jsonParseStringBody (acc : List Char) : List Char → Option (String × List Char)
  | [] => none
  | '"' :: rest => some (String.mk acc, rest)
  | '\\' :: esc =>
    match esc with
    | '"' :: r => jsonParseStringBody (acc ++ ['"']) r
    | '\\' :: r => jsonParseStringBody (acc ++ ['\\']) r
    | '/' :: r => jsonParseStringBody (acc ++ ['/']) r
    | 'b' :: r => jsonParseStringBody (acc ++ [Char.ofNat 8]) r
    | 'f' :: r => jsonParseStringBody (acc ++ [Char.ofNat 12]) r
    | 'n' :: r => jsonParseStringBody (acc ++ ['\n']) r
    | 'r' :: r => jsonParseStringBody (acc ++ ['\r']) r
    | 't' :: r => jsonParseStringBody (acc ++ ['\t']) r
    | 'u' :: h1 :: h2 :: h3 :: h4 :: r =>
      match hexVal h1, hexVal h2, hexVal h3, hexVal h4 with
      | some a, some b, some c, some d =>
        jsonParseStringBody (acc ++ [Char.ofNat (((a * 16 + b) * 16 + c) * 16 + d)]) r
      | _, _, _, _ => none
    | _ => none
  | c :: rest =>
    if c.toNat < 32 then none else jsonParseStringBody (acc ++ [c]) rest

/-- Numeric value of a digit run. -/
def digitsToNat (ds : List Char) : Nat :=
  ds.foldl (fun n c => n * 10 + (c.toNat - '0'.toNat)) 0

/-- Parse a JSON number (grammar `-?int frac? exp?`). -/
def jsonParseNumber (cs : List Char) : Option (ℚ × List Char) :=
  let signed : Bool × List Char :=
    match cs with
    | '-' :: r => (true, r)
    | _ => (false, cs)
  let ip := signed.2.span Char.isDigit
  if ip.1.isEmpty then none
  else if 1 < ip.1.length && ip.1.head? == some '0' then none
  else
    let fracStep : Option (List Char × List Char) :=
      match ip.2 with
      | '.' :: r =>
        let fp := r.span Char.isDigit
        if fp.1.isEmpty then none else some (fp.1, fp.2)
      | _ => some ([], ip.2)
    match fracStep with
    | none => none
    | some (fds, cs2) =>
      let expStep : Option (Int × List Char) :=
        match cs2 with
        | c :: r =>
          if c == 'e' || c == 'E' then
            let se : Bool × List Char :=
              match r with
              | '+' :: r2 => (false, r2)
              | '-' :: r2 => (true, r2)
              | _ => (false, r)
            let ep := se.2.span Char.isDigit
            if ep.1.isEmpty then none
            else some ((if se.1 then -(digitsToNat ep.1 : Int) else (digitsToNat ep.1 : Int)), ep.2)
          else some (0, cs2)
        | [] => some (0, cs2)
      match expStep with
      | none => none
      | some (e, cs3) =>
        let mag : ℚ :=
          ((digitsToNat ip.1 : ℚ) + (digitsToNat fds : ℚ) / ((10 : ℚ) ^ fds.length)) *
            (10 : ℚ) ^ e
        some ((if signed.1 then -mag else mag), cs3)

mutual

/-- Fueled recursive-descent parser for a JSON value. -/
def jsonParseValue : Nat → List Char → Option (Json × List Char)
  | 0, _ => none
  | _ + 1, [] => none
  | fuel + 1, cs =>
    match jsonSkipWs cs with
    | 'n' :: 'u' :: 'l' :: 'l' :: rest => some (.nullV, rest)
    | 't' :: 'r' :: 'u' :: 'e' :: rest => some (.boolV true, rest)
    | 'f' :: 'a' :: 'l' :: 's' :: 'e' :: rest => some (.boolV false, rest)
    | '"' :: rest =>
      match jsonParseStringBody [] rest with
      | some (s, rest') => some (.strV s, rest')
      | none => none
    | '[' :: rest =>
      (match jsonSkipWs rest with
      | ']' :: rest' => some (.arrV [], rest')
      | inner =>
        match jsonParseElems fuel inner with
        | some (xs, rest') => some (.arrV xs, rest')
        | none => none)
    | '{' :: rest =>
      (match jsonSkipWs rest with
      | '}' :: rest' => some (.objV [], rest')
      | inner =>
        match jsonParseFields fuel inner with
        | some (fs, rest') => some (.objV fs, rest')
        | none => none)
    | other =>
      match jsonParseNumber other with
      | some (q, rest) => some (.numV q, rest)
      | none => none

/-- Array elements (at least one), up to and including the closing bracket. -/
def jsonParseElems : Nat → List Char → Option (List Json × List Char)
  | 0, _ => none
  | fuel + 1, cs =>
    match jsonParseValue fuel cs with
    | none => none
    | some (v, rest) =>
      match jsonSkipWs rest with
      | ',' :: rest' =>
        match jsonParseElems fuel rest' with
        | some (vs, rest2) => some (v :: vs, rest2)
        | none => none
      | ']' :: rest' => some ([v], rest')
      | _ => none

/-- Object members (at least one), up to and including the closing brace. -/
def jsonParseFields : Nat → List Char → Option (List (String × Json) × List Char)
  | 0, _ => none
  | fuel + 1, cs =>
    match jsonSkipWs cs with
    | '"' :: rest =>
      (match jsonParseStringBody [] rest with
      | none => none
      | some (k, rest1) =>
        match jsonSkipWs rest1 with
        | ':' :: rest2 =>
          (match jsonParseValue fuel rest2 with
          | none => none
          | some (v, rest3) =>
            match jsonSkipWs rest3 with
            | ',' :: rest4 =>
              (match jsonParseFields fuel rest4 with
              | some (fs, rest5) => some ((k, v) :: fs, rest5)
              | none => none)
            | '}' :: rest4 => some ([(k, v)], rest4)
            | _ => none)
        | _ => none)
    | _ => none

end

/-- `JSON.parse`: parse one value, allow surrounding whitespace, require the
    whole input consumed; `none` models the SyntaxError throw. -/
def jsonParse (s : String) : Option Json :=
  match jsonParseValue (2 * s.length + 16) s.toList with
  | some (v, rest) => if (jsonSkipWs rest).isEmpty then some v else none
  | none => none

/-- JS property read `obj[k]` on a parsed object: later duplicate keys win,
    absent keys and non-objects give `none` (undefined). -/
def Json.getField (j : Json) (k : String) : Option Json :=
  match j with
  | .objV fs => fs.foldl (fun acc p => if p.1 = k then some p.2 else acc) none
  | _ => none

/-- JS falsiness of a JSON value. -/
def Json.isFalsy : Json → Bool
  | .nullV => true
  | .boolV b => !b
  | .numV q => q == 0
  | .strV s => s == ""
  | _ => false

/-- JS `obj.k || d` where a missing key (undefined) is falsy. -/
def jsOrField (j : Json) (k : String) (d : Json) : Json :=
  match j.getField k with
  | none => d
  | some v => if v.isFalsy then d else v

/-- JS `obj.k?.length || 0`. -/
def jsLengthOrZero (j : Json) (k : String) : Nat :=
  match j.getField k with
  | some (.arrV xs) => xs.length
  | some (.strV s) => s.length
  | _ => 0

/-- A JSON array of strings. -/
def Json.strArr (l : List String) : Json := .arrV (l.map Json.strV)

/-- A message as a JSON object (for the `byRole` stats payloads). -/
def msgToJson (m : Msg) : Json :=
  .objV [("role", .strV m.role), ("content", .strV m.content),
         ("topic", match m.topic with | some t => .strV t | none => .nullV)]

/-- `getMessagesByRole` serialized into a result object. -/
def byRoleJson (msgs : List Msg) : Json :=
  .objV ((Det.groupMessagesByRole msgs).map (fun g => (g.1, Json.arrV (g.2.map msgToJson))))

namespace Aio

open Gateway

/- ----------------------------------------------------------------- -/
/- The AI orchestrator with deterministic fallbacks (the unnamed     -/
/- agent-orchestrator variant importing ai-service with              -/
/- runXAgentFallback methods).  Results are JS objects, modelled as  -/
/- Json values.                                                      -/
/- ----------------------------------------------------------------- -/

/-- `runStructureAgentFallback`. -/
def runStructureAgentFallback (msgs : List Msg) (_cfg : AgentConfig) : Json :=
  let topicGroups := Det.groupMessagesByTopic msgs
  .objV
    [("sections", Json.strArr
        ["Executive Summary", "Overview", "General", "Next Steps", "Conclusion"]),
     ("topicGroups", Json.strArr (topicGroups.map (fun g => g.1))),
     ("messageCount", .numV (msgs.length : ℚ)),
     ("topicCount", .numV (topicGroups.length : ℚ)),
     ("fallbackUsed", .boolV true)]

/-- `runRequirementsAgentFallback`. -/
def runRequirementsAgentFallback (msgs : List Msg) (_cfg : AgentConfig) : Json :=
  let kws := ["should", "must", "require", "need", "implement"]
  let reqs := (msgs.filter
      (fun m => containsAnyKeyword kws (jsToLower m.content))).map
    (fun m => jsSubstringTo m.content 100 ++ "...")
  .objV
    [("functional", Json.strArr (reqs.take 5)),
     ("nonFunctional", .arrV []),
     ("technical", .arrV []),
     ("summary", .strV "Basic keyword-based extraction"),
     ("totalMessages", .numV (msgs.length : ℚ)),
     ("requirementDensity", .numV ((reqs.length : ℚ) / (msgs.length : ℚ))),
     ("fallbackUsed", .boolV true)]

/-- `runUserPerspectiveAgentFallback`. -/
def runUserPerspectiveAgentFallback (msgs : List Msg) (_cfg : AgentConfig) : Json :=
  .objV
    [("personas", .arrV []),
     ("userNeeds", .arrV []),
     ("feedback", .arrV []),
     ("insights", Json.strArr ["Basic user mention analysis"]),
     ("totalMessages", .numV (msgs.length : ℚ)),
     ("fallbackUsed", .boolV true)]

/-- `runDocumentationAgentFallback`. -/
def runDocumentationAgentFallback (msgs : List Msg) (_cfg : AgentConfig) : Json :=
  let questionMarks := (msgs.filter (fun m => jsIncludes m.content "?")).length
  .objV
    [("gaps", .arrV []),
     ("suggestions", Json.strArr ["Review conversation for missing context"]),
     ("priorities", Json.strArr ["high", "medium", "low"]),
     ("topics", .arrV []),
     ("totalMessages", .numV (msgs.length : ℚ)),
     ("gapDensity", .numV ((questionMarks : ℚ) / (msgs.length : ℚ))),
     ("fallbackUsed", .boolV true)]

/-- `runMetaAgentFallback`. -/
def runMetaAgentFallback (msgs : List Msg) (_cfg : AgentConfig) : Json :=
  .objV
    [("insights", Json.strArr
        ["Basic conversation analysis", "Message distribution by role",
         "Limited meta-analysis available"]),
     ("patterns", .arrV []),
     ("themes", .arrV []),
     ("qualityAssessment", .strV "Basic analysis only"),
     ("messageStats", .objV
        [("total", .numV (msgs.length : ℚ)), ("byRole", byRoleJson msgs)]),
     ("fallbackUsed", .boolV true)]

/-- The model warning for a `JSON.parse` SyntaxError caught by the agent. -/
def parseFailWarn (agentId : Nat) : LogEntry :=
  ⟨some agentId, "warn", "AI analysis failed, using fallback: SyntaxError"⟩

/-- The warning for a gateway error caught by the agent. -/
def gatewayFailWarn (agentId : Nat) (e : String) : LogEntry :=
  ⟨some agentId, "warn", "AI analysis failed, using fallback: Error: " ++ e⟩

/-- `runStructureAgent` (AI version with fallback): calls the gateway
    preferring openai, parses the returned text with `JSON.parse`, maps
    fields with `|| []` defaults; any failure in the try block is converted
    to the deterministic fallback result after a `warn` log. -/
def runStructureAgent (aiEnv : AIEnv) (msgs : List Msg) (cfg : AgentConfig)
    (agentId : Nat) : Json × List LogEntry :=
  let l0 : LogEntry :=
    ⟨some agentId, "info", "Processing " ++ toString msgs.length ++ " messages"⟩
  match smartCall aiEnv (some .openai) with
  | .error e => (runStructureAgentFallback msgs cfg, [l0, gatewayFailWarn agentId e])
  | .ok resp =>
    match jsonParse resp.content with
    | none => (runStructureAgentFallback msgs cfg, [l0, parseFailWarn agentId])
    | some j =>
      (.objV
        [("sections", jsOrField j "sections" (.arrV [])),
         ("topicGroups", jsOrField j "topicGroups" (.arrV [])),
         ("messageCount", .numV (msgs.length : ℚ)),
         ("topicCount", .numV ((jsLengthOrZero j "topicGroups" : ℚ))),
         ("insights", jsOrField j "insights" (.arrV [])),
         ("aiModel", .strV resp.model),
         ("aiProvider", .strV resp.provider.name)],
       [l0, ⟨some agentId, "info",
         "AI identified " ++ toString (jsLengthOrZero j "sections") ++
         " sections and " ++ toString (jsLengthOrZero j "topicGroups") ++
         " topic groups"⟩])

/-- `runRequirementsAgent` (AI version with fallback). -/
def runRequirementsAgent (aiEnv : AIEnv) (msgs : List Msg) (cfg : AgentConfig)
    (agentId : Nat) : Json × List LogEntry :=
  match smartCall aiEnv (some .openai) with
  | .error e => (runRequirementsAgentFallback msgs cfg, [gatewayFailWarn agentId e])
  | .ok resp =>
    match jsonParse resp.content with
    | none => (runRequirementsAgentFallback msgs cfg, [parseFailWarn agentId])
    | some j =>
      let totalRequirements :=
        jsLengthOrZero j "functional" + jsLengthOrZero j "non_functional" +
          jsLengthOrZero j "technical"
      (.objV
        [("functional", jsOrField j "functional" (.arrV [])),
         ("nonFunctional", jsOrField j "non_functional" (.arrV [])),
         ("technical", jsOrField j "technical" (.arrV [])),
         ("summary", jsOrField j "summary" (.strV "")),
         ("totalMessages", .numV (msgs.length : ℚ)),
         ("requirementDensity", .numV ((totalRequirements : ℚ) / (msgs.length : ℚ))),
         ("aiModel", .strV resp.model),
         ("aiProvider", .strV resp.provider.name)],
       [⟨some agentId, "info",
         "AI extracted " ++ toString totalRequirements ++ " requirements"⟩])

/-- `runUserPerspectiveAgent` (AI version with fallback). -/
def runUserPerspectiveAgent (aiEnv : AIEnv) (msgs : List Msg) (cfg : AgentConfig)
    (agentId : Nat) : Json × List LogEntry :=
  match smartCall aiEnv (some .anthropic) with
  | .error e => (runUserPerspectiveAgentFallback msgs cfg, [gatewayFailWarn agentId e])
  | .ok resp =>
    match jsonParse resp.content with
    | none => (runUserPerspectiveAgentFallback msgs cfg, [parseFailWarn agentId])
    | some j =>
      (.objV
        [("personas", jsOrField j "personas" (.arrV [])),
         ("userNeeds", jsOrField j "needs" (.arrV [])),
         ("feedback", jsOrField j "feedback" (.arrV [])),
         ("insights", jsOrField j "insights" (.arrV [])),
         ("totalMessages", .numV (msgs.length : ℚ)),
         ("aiModel", .strV resp.model),
         ("aiProvider", .strV resp.provider.name)],
       [⟨some agentId, "info",
         "AI identified " ++ toString (jsLengthOrZero j "personas") ++
         " personas and " ++ toString (jsLengthOrZero j "needs") ++ " user needs"⟩])

/-- `runDocumentationAgent` (AI version with fallback). -/
def runDocumentationAgent (aiEnv : AIEnv) (msgs : List Msg) (cfg : AgentConfig)
    (agentId : Nat) : Json × List LogEntry :=
  match smartCall aiEnv (some .anthropic) with
  | .error e => (runDocumentationAgentFallback msgs cfg, [gatewayFailWarn agentId e])
  | .ok resp =>
    match jsonParse resp.content with
    | none => (runDocumentationAgentFallback msgs cfg, [parseFailWarn agentId])
    | some j =>
      (.objV
        [("gaps", jsOrField j "gaps" (.arrV [])),
         ("suggestions", jsOrField j "suggestions" (.arrV [])),
         ("priorities", jsOrField j "priorities" (.arrV [])),
         ("topics", jsOrField j "topics" (.arrV [])),
         ("totalMessages", .numV (msgs.length : ℚ)),
         ("gapDensity", .numV ((jsLengthOrZero j "gaps" : ℚ) / (msgs.length : ℚ))),
         ("aiModel", .strV resp.model),
         ("aiProvider", .strV resp.provider.name)],
       [⟨some agentId, "info",
         "AI identified " ++ toString (jsLengthOrZero j "gaps") ++
         " documentation gaps"⟩])

/-- `runMetaAgent` (AI version with fallback). -/
def runMetaAgent (aiEnv : AIEnv) (msgs : List Msg) (cfg : AgentConfig)
    (agentId : Nat) : Json × List LogEntry :=
  match smartCall aiEnv (some .anthropic) with
  | .error e => (runMetaAgentFallback msgs cfg, [gatewayFailWarn agentId e])
  | .ok resp =>
    match jsonParse resp.content with
    | none => (runMetaAgentFallback msgs cfg, [parseFailWarn agentId])
    | some j =>
      (.objV
        [("insights", jsOrField j "insights" (.arrV [])),
         ("patterns", jsOrField j "patterns" (.arrV [])),
         ("themes", jsOrField j "themes" (.arrV [])),
         ("qualityAssessment", jsOrField j "quality_assessment" (.strV "")),
         ("messageStats", .objV
            [("total", .numV (msgs.length : ℚ)), ("byRole", byRoleJson msgs)]),
         ("aiModel", .strV resp.model),
         ("aiProvider", .strV resp.provider.name)],
       [⟨some agentId, "info",
         "AI generated " ++ toString (jsLengthOrZero j "insights") ++
         " meta insights"⟩])

/-- `runAgent` of the AI orchestrator: dispatch on the five known types,
    throw on any other type. -/
def runAgent (aiEnv : AIEnv) (a : AgentRec) (msgs : List Msg) :
    Except String (Json × List LogEntry) :=
  let cfg := a.configuration
  if a.type = "structure" then .ok (runStructureAgent aiEnv msgs cfg a.id)
  else if a.type = "requirements" then .ok (runRequirementsAgent aiEnv msgs cfg a.id)
  else if a.type = "user_perspective" then .ok (runUserPerspectiveAgent aiEnv msgs cfg a.id)
  else if a.type = "documentation" then .ok (runDocumentationAgent aiEnv msgs cfg a.id)
  else if a.type = "meta" then .ok (runMetaAgent aiEnv msgs cfg a.id)
  else .error ("Unknown agent type: " ++ a.type)

/-- The agent loop state of the AI orchestrator. -/
structure LoopOut where
  results : List (String × Json)
  logs : List LogEntry
  touched : List Nat
  err : Option String

/-- The agent loop: the i-th enabled agent's single gateway interaction is
    governed by `aiEnvs i`. -/
def runAgentsLoop (aiEnvs : Nat → AIEnv) (msgs : List Msg) :
    Nat → List AgentRec → LoopOut
  | _, [] => ⟨[], [], [], none⟩
  | i, a :: rest =>
    let startLog : LogEntry := ⟨some a.id, "info", "Starting " ++ a.name⟩
    match runAgent (aiEnvs i) a msgs with
    | .error e => ⟨[], [startLog], [], some e⟩
    | .ok (r, agentLogs) =>
      let doneLog : LogEntry := ⟨some a.id, "info", "Completed " ++ a.name⟩
      let tailOut := runAgentsLoop aiEnvs msgs (i + 1) rest
      ⟨(a.type, r) :: tailOut.results,
       startLog :: (agentLogs ++ [doneLog]) ++ tailOut.logs,
       a.id :: tailOut.touched,
       tailOut.err⟩

/-- A run-record write of the AI orchestrator. -/
inductive WriteA where
  | setStatus (status : String)
  | complete (results : List (String × Json))

/-- The status a write stores. -/
def WriteA.statusOf : WriteA → String
  | .setStatus s => s
  | .complete _ => "completed"

/-- One `runAnalysis` invocation's observable effects (AI orchestrator). -/
structure Outcome where
  writes : List WriteA
  logs : List LogEntry
  touched : List Nat
  artifactFormats : List String
  err : Option String

/-- The AI orchestrator's environment. -/
structure Env where
  runExists : Bool
  fileExists : Bool
  messages : List Msg
  agents : List AgentRec
  aiEnvs : Nat → AIEnv

/-- `runAnalysis` of the AI orchestrator (same skeleton as the
    deterministic one; outputs markdown, html and json). -/
def runAnalysis (env : Env) : Outcome :=
  if !env.runExists then ⟨[], [], [], [], some "Analysis run not found"⟩
  else
    let w0 : List WriteA := [.setStatus "running"]
    let l0 : List LogEntry := [⟨none, "info", "Starting analysis pipeline"⟩]
    if !env.fileExists then
      ⟨w0 ++ [.setStatus "failed"],
       l0 ++ [⟨none, "error", "Analysis failed: File not found"⟩],
       [], [], some "File not found"⟩
    else if env.messages.isEmpty then
      ⟨w0 ++ [.setStatus "failed"],
       l0 ++ [⟨none, "error", "Analysis failed: No messages found in file"⟩],
       [], [], some "No messages found in file"⟩
    else
      let enabled := env.agents.filter (fun a => a.enabled)
      let l1 := l0 ++ [⟨none, "info", "Running " ++ toString enabled.length ++ " agents"⟩]
      let lo := runAgentsLoop env.aiEnvs env.messages 0 enabled
      match lo.err with
      | some e =>
        ⟨w0 ++ [.setStatus "failed"],
         l1 ++ lo.logs ++ [⟨none, "error", "Analysis failed: " ++ e⟩],
         lo.touched, [], some e⟩
      | none =>
        ⟨w0 ++ [.complete lo.results],
         l1 ++ lo.logs ++
           [⟨none, "info", "Generating documentation outputs"⟩,
            ⟨none, "info", "Analysis completed successfully"⟩],
         lo.touched, ["markdown", "html", "json"], none⟩

end Aio

namespace Broken

open Gateway

/- ----------------------------------------------------------------- -/
/- agent-orchestrator-broken.ts: the AI orchestrator variant whose   -/
/- agents log a warning and RE-RAISE on AI failure, and whose output -/
/- stage emits markdown, html, latex, wiki, docx (the docx renderer  -/
/- individually guarded) and json.                                   -/
/- ----------------------------------------------------------------- -/

/-- The agent catch block's warning (before the rethrow). -/
def warnLog (agentId : Nat) (e : String) : LogEntry :=
  ⟨some agentId, "warn", "AI analysis failed: " ++ e⟩

/-- `runStructureAgent` of the broken orchestrator: on gateway or parse
    failure, logs `warn` and rethrows. -/
def runStructureAgent (aiEnv : AIEnv) (msgs : List Msg) (_cfg : AgentConfig)
    (agentId : Nat) : Except String Json × List LogEntry :=
  let l0 : LogEntry :=
    ⟨some agentId, "info", "Processing " ++ toString msgs.length ++ " messages with AI"⟩
  match smartCall aiEnv (some .openai) with
  | .error e => (.error e, [l0, warnLog agentId e])
  | .ok resp =>
    match jsonParse resp.content with
    | none => (.error "SyntaxError", [l0, warnLog agentId "SyntaxError"])
    | some j =>
      (.ok (.objV
        [("sections", jsOrField j "sections" (.arrV [])),
         ("topicGroups", jsOrField j "topicGroups" (.arrV [])),
         ("insights", jsOrField j "insights" (.arrV [])),
         ("messageCount", .numV (msgs.length : ℚ)),
         ("topicCount", .numV ((jsLengthOrZero j "topicGroups" : ℚ))),
         ("aiModel", .strV resp.model),
         ("aiProvider", .strV resp.provider.name)]),
       [l0, ⟨some agentId, "info",
         "AI identified " ++ toString (jsLengthOrZero j "sections") ++
         " sections using " ++ resp.model⟩])

/-- `runRequirementsAgent` of the broken orchestrator. -/
def runRequirementsAgent (aiEnv : AIEnv) (msgs : List Msg) (_cfg : AgentConfig)
    (agentId : Nat) : Except String Json × List LogEntry :=
  match smartCall aiEnv (some .openai) with
  | .error e => (.error e, [warnLog agentId e])
  | .ok resp =>
    match jsonParse resp.content with
    | none => (.error "SyntaxError", [warnLog agentId "SyntaxError"])
    | some j =>
      let totalRequirements :=
        jsLengthOrZero j "functional" + jsLengthOrZero j "non_functional" +
          jsLengthOrZero j "technical"
      (.ok (.objV
        [("functional", jsOrField j "functional" (.arrV [])),
         ("nonFunctional", jsOrField j "non_functional" (.arrV [])),
         ("technical", jsOrField j "technical" (.arrV [])),
         ("summary", jsOrField j "summary" (.strV "")),
         ("totalMessages", .numV (msgs.length : ℚ)),
         ("requirementDensity", .numV ((totalRequirements : ℚ) / (msgs.length : ℚ))),
         ("aiModel", .strV resp.model),
         ("aiProvider", .strV resp.provider.name)]),
       [⟨some agentId, "info",
         "AI extracted " ++ toString totalRequirements ++ " requirements using " ++
         resp.model⟩])

/-- `runUserPerspectiveAgent` of the broken orchestrator. -/
def runUserPerspectiveAgent (aiEnv : AIEnv) (msgs : List Msg) (_cfg : AgentConfig)
    (agentId : Nat) : Except String Json × List LogEntry :=
  match smartCall aiEnv (some .anthropic) with
  | .error e => (.error e, [warnLog agentId e])
  | .ok resp =>
    match jsonParse resp.content with
    | none => (.error "SyntaxError", [warnLog agentId "SyntaxError"])
    | some j =>
      (.ok (.objV
        [("personas", jsOrField j "personas" (.arrV [])),
         ("userNeeds", jsOrField j "needs" (.arrV [])),
         ("feedback", jsOrField j "feedback" (.arrV [])),
         ("insights", jsOrField j "insights" (.arrV [])),
         ("totalMessages", .numV (msgs.length : ℚ)),
         ("aiModel", .strV resp.model),
         ("aiProvider", .strV resp.provider.name)]),
       [⟨some agentId, "info",
         "AI identified " ++ toString (jsLengthOrZero j "personas") ++
         " personas using " ++ resp.model⟩])

/-- `runDocumentationAgent` of the broken orchestrator. -/
def runDocumentationAgent (aiEnv : AIEnv) (msgs : List Msg) (_cfg : AgentConfig)
    (agentId : Nat) : Except String Json × List LogEntry :=
  match smartCall aiEnv (some .anthropic) with
  | .error e => (.error e, [warnLog agentId e])
  | .ok resp =>
    match jsonParse resp.content with
    | none => (.error "SyntaxError", [warnLog agentId "SyntaxError"])
    | some j =>
      (.ok (.objV
        [("gaps", jsOrField j "gaps" (.arrV [])),
         ("suggestions", jsOrField j "suggestions" (.arrV [])),
         ("priorities", jsOrField j "priorities" (.arrV [])),
         ("topics", jsOrField j "topics" (.arrV [])),
         ("totalMessages", .numV (msgs.length : ℚ)),
         ("gapDensity", .numV ((jsLengthOrZero j "gaps" : ℚ) / (msgs.length : ℚ))),
         ("aiModel", .strV resp.model),
         ("aiProvider", .strV resp.provider.name)]),
       [⟨some agentId, "info",
         "AI identified " ++ toString (jsLengthOrZero j "gaps") ++
         " documentation gaps using " ++ resp.model⟩])

/-- `runMetaAgent` of the broken orchestrator. -/
def runMetaAgent (aiEnv : AIEnv) (msgs : List Msg) (_cfg : AgentConfig)
    (agentId : Nat) : Except String Json × List LogEntry :=
  match smartCall aiEnv (some .anthropic) with
  | .error e => (.error e, [warnLog agentId e])
  | .ok resp =>
    match jsonParse resp.content with
    | none => (.error "SyntaxError", [warnLog agentId "SyntaxError"])
    | some j =>
      (.ok (.objV
        [("insights", jsOrField j "insights" (.arrV [])),
         ("patterns", jsOrField j "patterns" (.arrV [])),
         ("themes", jsOrField j "themes" (.arrV [])),
         ("qualityAssessment", jsOrField j "quality_assessment" (.strV "")),
         ("messageStats", .objV
            [("total", .numV (msgs.length : ℚ)), ("byRole", byRoleJson msgs)]),
         ("aiModel", .strV resp.model),
         ("aiProvider", .strV resp.provider.name)]),
       [⟨some agentId, "info",
         "AI generated " ++ toString (jsLengthOrZero j "insights") ++
         " meta insights using " ++ resp.model⟩])

/-- `runAgent` of the broken orchestrator. -/
def runAgent (aiEnv : AIEnv) (a : AgentRec) (msgs : List Msg) :
    Except String Json × List LogEntry :=
  let cfg := a.configuration
  if a.type = "structure" then runStructureAgent aiEnv msgs cfg a.id
  else if a.type = "requirements" then runRequirementsAgent aiEnv msgs cfg a.id
  else if a.type = "user_perspective" then runUserPerspectiveAgent aiEnv msgs cfg a.id
  else if a.type = "documentation" then runDocumentationAgent aiEnv msgs cfg a.id
  else if a.type = "meta" then runMetaAgent aiEnv msgs cfg a.id
  else (.error ("Unknown agent type: " ++ a.type), [])

/-- The agent loop state of the broken orchestrator. -/
structure LoopOut where
  results : List (String × Json)
  logs : List LogEntry
  touched : List Nat
  err : Option String

/-- The agent loop of the broken orchestrator: the first agent throw aborts
    the remaining agents (its pre-throw logs having been written). -/
def runAgentsLoop (aiEnvs : Nat → AIEnv) (msgs : List Msg) :
    Nat → List AgentRec → LoopOut
  | _, [] => ⟨[], [], [], none⟩
  | i, a :: rest =>
    let startLog : LogEntry := ⟨some a.id, "info", "Starting " ++ a.name⟩
    match runAgent (aiEnvs i) a msgs with
    | (.error e, agentLogs) => ⟨[], startLog :: agentLogs, [], some e⟩
    | (.ok r, agentLogs) =>
      let doneLog : LogEntry := ⟨some a.id, "info", "Completed " ++ a.name⟩
      let tailOut := runAgentsLoop aiEnvs msgs (i + 1) rest
      ⟨(a.type, r) :: tailOut.results,
       startLog :: (agentLogs ++ [doneLog]) ++ tailOut.logs,
       a.id :: tailOut.touched,
       tailOut.err⟩

/-- The broken orchestrator's environment: the storage view, the per-agent
    gateway environments, and the outcome of each renderer call (the
    renderers are external string transforms that may throw). -/
structure Env where
  runExists : Bool
  fileExists : Bool
  messages : List Msg
  agents : List AgentRec
  aiEnvs : Nat → AIEnv
  markdownR : Except String Unit
  htmlR : Except String Unit
  latexR : Except String Unit
  wikiR : Except String Unit
  wordR : Except String Unit

/-- One `runAnalysis` invocation's observable effects (broken orchestrator);
    `artifactFormats` lists the formats actually persisted, in order. -/
structure Outcome where
  writes : List Aio.WriteA
  logs : List LogEntry
  touched : List Nat
  artifactFormats : List String
  err : Option String

/-- The output stage of the broken `runAnalysis`: markdown, html, latex and
    wiki generation are unguarded (a throw escapes to the orchestrator's
    catch); the docx generation is wrapped in its own try/catch that logs a
    `warn` and skips only that format; the json output follows. Returns the
    artifacts persisted (in order), the extra logs, and the escaping error
    if any. -/
def outputStage (env : Env) : List String × List LogEntry × Option String :=
  match env.markdownR with
  | .error e => ([], [], some e)
  | .ok _ =>
    match env.htmlR with
    | .error e => (["markdown"], [], some e)
    | .ok _ =>
      match env.latexR with
      | .error e => (["markdown", "html"], [], some e)
      | .ok _ =>
        match env.wikiR with
        | .error e => (["markdown", "html", "latex"], [], some e)
        | .ok _ =>
          match env.wordR with
          | .ok _ =>
            (["markdown", "html", "latex", "wiki", "docx", "json"], [], none)
          | .error e =>
            (["markdown", "html", "latex", "wiki", "json"],
             [⟨none, "warn", "Word generation failed: " ++ e⟩], none)

/-- `runAnalysis` of the broken orchestrator. -/
def runAnalysis (env : Env) : Outcome :=
  if !env.runExists then ⟨[], [], [], [], some "Analysis run not found"⟩
  else
    let w0 : List Aio.WriteA := [.setStatus "running"]
    let l0 : List LogEntry := [⟨none, "info", "Starting AI-powered analysis pipeline"⟩]
    if !env.fileExists then
      ⟨w0 ++ [.setStatus "failed"],
       l0 ++ [⟨none, "error", "Analysis failed: File not found"⟩],
       [], [], some "File not found"⟩
    else if env.messages.isEmpty then
      ⟨w0 ++ [.setStatus "failed"],
       l0 ++ [⟨none, "error", "Analysis failed: No messages found in file"⟩],
       [], [], some "No messages found in file"⟩
    else
      let enabled := env.agents.filter (fun a => a.enabled)
      let l1 := l0 ++ [⟨none, "info",
        "Running " ++ toString enabled.length ++ " AI agents"⟩]
      let lo := runAgentsLoop env.aiEnvs env.messages 0 enabled
      match lo.err with
      | some e =>
        ⟨w0 ++ [.setStatus "failed"],
         l1 ++ lo.logs ++ [⟨none, "error", "Analysis failed: " ++ e⟩],
         lo.touched, [], some e⟩
      | none =>
        let l2 := l1 ++ lo.logs ++
          [⟨none, "info", "Generating documentation outputs in multiple formats"⟩]
        match outputStage env with
        | (arts, extraLogs, some e) =>
          ⟨w0 ++ [.setStatus "failed"],
           l2 ++ extraLogs ++ [⟨none, "error", "Analysis failed: " ++ e⟩],
           lo.touched, arts, some e⟩
        | (arts, extraLogs, none) =>
          ⟨w0 ++ [.complete lo.results],
           l2 ++ extraLogs ++ [⟨none, "info", "AI analysis completed successfully"⟩],
           lo.touched, arts, none⟩

end Broken

/- ----------------------------------------------------------------- -/
/- Spec-side definition for the brace-extraction claim.              -/
/- ----------------------------------------------------------------- -/

/-- Scanner for `firstBraceBlock`: depth-tracking scan starting at a `{`. -/
def scanBalanced : Nat → List Char → List Char → Option (List Char)
  | _, _, [] => none
  | d, acc, c :: rest =>
    if c == '{' then scanBalanced (d + 1) (acc ++ [c]) rest
    else if c == '}' then
      match d with
      | 0 => none
      | 1 => some (acc ++ [c])
      | d' + 1 => scanBalanced d' (acc ++ [c]) rest
    else scanBalanced d (acc ++ [c]) rest

/-- Modelled from the spec: "extracting the first balanced `{...}` block" of
    a model response — the substring from the first `{` to its matching `}`.
    No source function implements this; the definition follows the spec's
    words and exists to state the brace-extraction claim against the code. -/
def firstBraceBlock (s : String) : Option String :=
  match s.toList.dropWhile (fun c => !(c == '{')) with
  | [] => none
  | cs => (scanBalanced 0 [] cs).map String.mk

/-- The deterministic fallback result the AI orchestrator's agent of the
    given type produces (the agent's `runXAgentFallback`). -/
def aioFallbackResult (a : AgentRec) (msgs : List Msg) : Json :=
  if a.type = "structure" then Aio.runStructureAgentFallback msgs a.configuration
  else if a.type = "requirements" then Aio.runRequirementsAgentFallback msgs a.configuration
  else if a.type = "user_perspective" then Aio.runUserPerspectiveAgentFallback msgs a.configuration
  else if a.type = "documentation" then Aio.runDocumentationAgentFallback msgs a.configuration
  else Aio.runMetaAgentFallback msgs a.configuration

/-- The concrete environment of the C1 witness: two enabled agents, no
    provider configured (every gateway call fails). -/
def c1WitnessEnv : Aio.Env :=
  ⟨true, true, [⟨"user", "hi there", none⟩],
   [⟨1, "Structure Agent", "structure", true, AgentConfig.empty⟩,
    ⟨5, "Meta Agent", "meta", true, AgentConfig.empty⟩],
   fun _ => ⟨false, false, .error "x", .error "x"⟩⟩

/-- A model response wrapping valid JSON in prose (not directly parseable,
    but containing a balanced, parseable brace block). -/
def c8Resp : String :=
  "Here is the JSON: \x7b\"sections\": [\"Intro\"]\x7d"

/-- C9 witness environment: no enabled agents, docx renderer failing. -/
def c9WitnessEnvA : Broken.Env :=
  ⟨true, true, [⟨"user", "hi", none⟩], [],
   fun _ => ⟨false, false, .error "x", .error "x"⟩,
   .ok (), .ok (), .ok (), .ok (), .error "docx exploded"⟩

/-- C9 witness environment: markdown renderer failing. -/
def c9WitnessEnvB : Broken.Env :=
  ⟨true, true, [⟨"user", "hi", none⟩], [],
   fun _ => ⟨false, false, .error "x", .error "x"⟩,
   .error "md exploded", .ok (), .ok (), .ok (), .ok ()⟩

/- ================================================================= -/
/- Theorems                                                          -/
/- ================================================================= -/

/-- C5: `smartCall` (i) calls a configured preferred provider first and on
    its failure makes a single cross-provider hop to the other configured
    provider (never more than two calls); (ii) with the preferred provider
    unconfigured but the other configured, uses the other provider, whose
    identity is reported in the result's provider field; (iii) with neither
    provider configured, fails with the no-provider-configured error. -/
theorem c5_gateway_call_policy :
    (∀ (env : Gateway.AIEnv) (p : Gateway.Provider),
      Gateway.configured env p = true →
        (Gateway.smartCallT env (some p)).2.head? = some p ∧
        (Gateway.smartCallT env (some p)).2.length ≤ 2 ∧
        ∀ e, Gateway.callProvider env p = .error e →
          (Gateway.configured env p.other = true →
            Gateway.smartCallT env (some p) =
              (Gateway.callProvider env p.other, [p, p.other])) ∧
          (Gateway.configured env p.other = false →
            Gateway.smartCallT env (some p) = (.error e, [p]))) ∧
    (∀ (env : Gateway.AIEnv) (p : Gateway.Provider),
      Gateway.configured env p = false →
      Gateway.configured env p.other = true →
        Gateway.smartCallT env (some p) =
          (Gateway.callProvider env p.other, [p.other]) ∧
        ∀ r, Gateway.callProvider env p.other = .ok r → r.provider = p.other) ∧
    (∀ (env : Gateway.AIEnv) (pref : Option Gateway.Provider),
      env.openaiConfigured = false → env.anthropicConfigured = false →
        Gateway.smartCallT env pref = (.error "No AI providers configured", [])) := by
  refine ⟨?_, ?_, ?_⟩
  · rintro ⟨oc, ac, oo, ao⟩ p hp
    cases p
    · simp only [Gateway.configured] at hp
      subst hp
      rcases oo with e | c <;> rcases ao with e' | c' <;> cases ac <;>
        simp [Gateway.smartCallT, Gateway.callProvider, Gateway.callOpenAI,
          Gateway.callAnthropic, Gateway.Provider.other, Gateway.configured]
    · simp only [Gateway.configured] at hp
      subst hp
      rcases oo with e | c <;> rcases ao with e' | c' <;> cases oc <;>
        simp [Gateway.smartCallT, Gateway.callProvider, Gateway.callOpenAI,
          Gateway.callAnthropic, Gateway.Provider.other, Gateway.configured]
  · rintro ⟨oc, ac, oo, ao⟩ p hp hq
    cases p <;>
      simp only [Gateway.configured, Gateway.Provider.other] at hp hq <;>
      subst hp <;> subst hq <;>
      rcases oo with e | c <;> rcases ao with e' | c' <;>
      simp [Gateway.smartCallT, Gateway.callProvider, Gateway.callOpenAI,
        Gateway.callAnthropic, Gateway.Provider.other, Gateway.configured]
  · rintro ⟨oc, ac, oo, ao⟩ pref hp hq
    simp only at hp hq
    subst hp; subst hq
    rcases pref with _ | p
    · simp [Gateway.smartCallT]
    · cases p <;> simp [Gateway.smartCallT]

/-- C5 witness: the policy at a concrete environment (only the secondary
    provider configured, primary preferred). -/
theorem c5_gateway_call_policy_witness :
    Gateway.configured ⟨false, true, .error "boom", .ok "hi"⟩ .openai = false ∧
    Gateway.configured ⟨false, true, .error "boom", .ok "hi"⟩
      (Gateway.Provider.other .openai) = true ∧
    (Gateway.smartCallT ⟨false, true, .error "boom", .ok "hi"⟩ (some .openai) =
      (Gateway.callProvider ⟨false, true, .error "boom", .ok "hi"⟩
        (Gateway.Provider.other .openai), [Gateway.Provider.other .openai]) ∧
     ∀ r, Gateway.callProvider ⟨false, true, .error "boom", .ok "hi"⟩
        (Gateway.Provider.other .openai) = .ok r →
          r.provider = Gateway.Provider.other .openai) :=
  ⟨rfl, rfl,
   c5_gateway_call_policy.2.1 ⟨false, true, .error "boom", .ok "hi"⟩ .openai rfl rfl⟩

/-- Case analysis of the status writes of one `runAnalysis` invocation. -/
theorem runAnalysis_writes_cases (env : Det.Env) :
    ((Det.runAnalysis env).writes = [] ∧
      (Det.runAnalysis env).err = some Det.OErr.runNotFound) ∨
    ((Det.runAnalysis env).writes =
        [.setStatus "running" none, .setStatus "failed" none] ∧
      (Det.runAnalysis env).err.isSome = true) ∨
    (∃ rs, (Det.runAnalysis env).writes = [.setStatus "running" none, .complete rs] ∧
      (Det.runAnalysis env).err = none) := by
  rcases env with ⟨re, fe, msgs, ags⟩
  cases re
  · exact Or.inl ⟨rfl, rfl⟩
  · cases fe
    · exact Or.inr (Or.inl ⟨rfl, rfl⟩)
    · rcases msgs with _ | ⟨m, ms⟩
      · exact Or.inr (Or.inl ⟨rfl, rfl⟩)
      · rcases he : (Det.runAgentsLoop (m :: ms) (ags.filter (fun a => a.enabled))).err
          with _ | e
        · refine Or.inr (Or.inr ⟨(Det.runAgentsLoop (m :: ms)
            (ags.filter (fun a => a.enabled))).results, ?_, ?_⟩) <;>
            simp [Det.runAnalysis, he]
        · refine Or.inr (Or.inl ⟨?_, ?_⟩) <;> simp [Det.runAnalysis, he]

/-- C2: within one `runAnalysis` invocation the observed status sequence is
    a subsequence of `pending, running, (completed | failed)`: it never
    leaves a terminal status, and never swaps one terminal status for the
    other. -/
theorem c2_status_sequence_monotonic (env : Det.Env) :
    ∃ t, (t = "completed" ∨ t = "failed") ∧
      List.Sublist (Det.observedStatuses env) ["pending", "running", t] := by
  rcases runAnalysis_writes_cases env with ⟨hw, _⟩ | ⟨hw, _⟩ | ⟨rs, hw, _⟩
  · exact ⟨"failed", Or.inr rfl,
      by simp only [Det.observedStatuses, hw, List.map_nil]; decide⟩
  · exact ⟨"failed", Or.inr rfl,
      by simp only [Det.observedStatuses, hw, List.map_cons, List.map_nil,
           Det.Write.statusOf]
         decide⟩
  · exact ⟨"completed", Or.inl rfl,
      by simp only [Det.observedStatuses, hw, List.map_cons, List.map_nil,
           Det.Write.statusOf]
         exact List.Sublist.refl _⟩

/-- C3: after one `runAnalysis` invocation starting from the freshly
    created record (`pending`, null result), the record's result is non-null
    iff its status is `completed`; the completion time is set iff the status
    is `completed`; the result is written exactly once (by the single
    `completeAnalysisRun` write, atomically with the status and completion
    time) on success and never on failure, so a failed run's result stays
    null. -/
theorem c3_result_iff_completed (env : Det.Env) :
    ((Det.applyWrites Det.initialRun (Det.runAnalysis env).writes).results.isSome = true ↔
      (Det.applyWrites Det.initialRun (Det.runAnalysis env).writes).status = "completed") ∧
    ((Det.applyWrites Det.initialRun (Det.runAnalysis env).writes).completedAt = true ↔
      (Det.applyWrites Det.initialRun (Det.runAnalysis env).writes).status = "completed") ∧
    ((Det.runAnalysis env).writes.countP Det.Write.isComplete =
      if (Det.runAnalysis env).err = none then 1 else 0) ∧
    ((Det.runAnalysis env).err.isSome = true →
      (Det.applyWrites Det.initialRun (Det.runAnalysis env).writes).results = none) := by
  rcases runAnalysis_writes_cases env with ⟨hw, he⟩ | ⟨hw, he⟩ | ⟨rs, hw, he⟩
  · rw [hw, he]
    refine ⟨by simp [Det.applyWrites, Det.initialRun], ?_, ?_, ?_⟩ <;>
      simp [Det.applyWrites, Det.initialRun, Det.Write.isComplete]
  · rw [hw]
    have hne : (Det.runAnalysis env).err ≠ none := by
      intro hc; rw [hc] at he; simp at he
    refine ⟨?_, ?_, ?_, ?_⟩ <;>
      simp [Det.applyWrites, Det.initialRun, Det.applyWrite, Det.Write.isComplete,
        List.countP, List.countP.go, hne]
  · rw [hw, he]
    refine ⟨?_, ?_, ?_, ?_⟩ <;>
      simp [Det.applyWrites, Det.initialRun, Det.applyWrite, Det.Write.isComplete,
        List.countP, List.countP.go]

/-- C4: with an existing run and file but an empty message set,
    `runAnalysis` throws `No messages found in file` before any agent
    executes: the run's status writes are `running` then `failed`, no result
    is ever stored, no agent is touched, and every audit-log entry written
    has a null agent identifier. -/
theorem c4_empty_input_rejected (env : Det.Env)
    (h1 : env.runExists = true) (h2 : env.fileExists = true)
    (h3 : env.messages = []) :
    (Det.runAnalysis env).err = some Det.OErr.noMessages ∧
    (Det.runAnalysis env).writes =
      [.setStatus "running" none, .setStatus "failed" none] ∧
    (Det.runAnalysis env).touched = [] ∧
    (Det.runAnalysis env).writes.countP Det.Write.isComplete = 0 ∧
    (∀ l ∈ (Det.runAnalysis env).logs, l.agentId = none) := by
  rcases env with ⟨re, fe, msgs, ags⟩
  simp only at h1 h2 h3
  subst h1; subst h2; subst h3
  refine ⟨rfl, rfl, rfl, rfl, ?_⟩
  intro l hl
  simp only [Det.runAnalysis, Bool.not_true, Bool.false_eq_true, if_false,
    List.isEmpty_nil, if_true, List.nil_append, List.cons_append,
    List.mem_cons, List.not_mem_nil, or_false] at hl
  rcases hl with rfl | rfl <;> rfl

/-- C4 witness: the empty-input rejection at a concrete environment. -/
theorem c4_empty_input_rejected_witness :
    (Det.Env.mk true true [] []).runExists = true ∧
    (Det.Env.mk true true [] []).fileExists = true ∧
    (Det.Env.mk true true [] []).messages = [] ∧
    ((Det.runAnalysis (Det.Env.mk true true [] [])).err =
        some Det.OErr.noMessages ∧
      (Det.runAnalysis (Det.Env.mk true true [] [])).writes =
        [.setStatus "running" none, .setStatus "failed" none] ∧
      (Det.runAnalysis (Det.Env.mk true true [] [])).touched = [] ∧
      (Det.runAnalysis (Det.Env.mk true true [] [])).writes.countP
        Det.Write.isComplete = 0 ∧
      (∀ l ∈ (Det.runAnalysis (Det.Env.mk true true [] [])).logs,
        l.agentId = none)) :=
  ⟨rfl, rfl, rfl, c4_empty_input_rejected (Det.Env.mk true true [] []) rfl rfl rfl⟩

/-- The section-collecting fold of the Structure agent, from any
    accumulator: its first component appends one capitalized section per
    topic group meeting the threshold, in group order. -/
theorem tsf_foldl_fst (agentId minN : Nat) (groups : List (String × List Msg)) :
    ∀ acc : List String × List LogEntry,
      (List.foldl
        (fun acc g =>
          if minN ≤ g.2.length then
            (acc.1 ++ [capFirst g.1],
             acc.2 ++ [⟨some agentId, "info",
               "Identified section: " ++ g.1 ++ " (" ++ toString g.2.length ++ " messages)"⟩])
          else acc)
        acc groups).1 =
      acc.1 ++ (groups.filter (fun g => minN ≤ g.2.length)).map (fun g => capFirst g.1) := by
  induction groups with
  | nil => intro acc; simp
  | cons g rest ih =>
    intro acc
    simp only [List.foldl_cons, List.filter_cons]
    by_cases hg : minN ≤ g.2.length
    · simp [hg, ih]
    · simp [hg, ih]

/-- `topicSectionsFold` produces exactly the qualifying groups' sections. -/
theorem topicSectionsFold_fst (agentId minN : Nat)
    (groups : List (String × List Msg)) :
    (Det.topicSectionsFold agentId minN groups).1 =
      (groups.filter (fun g => minN ≤ g.2.length)).map (fun g => capFirst g.1) := by
  have h := tsf_foldl_fst agentId minN groups ([], [])
  simpa [Det.topicSectionsFold] using h

/-- Inserting into a grouped list: the touched key now holds its previous
    bucket (empty if absent) with the message appended. -/
theorem lookupGroup_insertGrouped_self (g : List (String × List Msg))
    (k : String) (m : Msg) :
    Det.lookupGroup (Det.insertGrouped k m g) k =
      some (((Det.lookupGroup g k).getD []) ++ [m]) := by
  induction g with
  | nil => simp [Det.insertGrouped, Det.lookupGroup]
  | cons p rest ih =>
    obtain ⟨k', ms⟩ := p
    by_cases hk : k' = k
    · subst hk; simp [Det.insertGrouped, Det.lookupGroup]
    · simp [Det.insertGrouped, Det.lookupGroup, hk, ih]

/-- Inserting into a grouped list leaves every other key's bucket unchanged. -/
theorem lookupGroup_insertGrouped_other (g : List (String × List Msg))
    (k : String) (m : Msg) (q : String) (h : q ≠ k) :
    Det.lookupGroup (Det.insertGrouped k m g) q = Det.lookupGroup g q := by
  induction g with
  | nil => simp [Det.insertGrouped, Det.lookupGroup, Ne.symm h]
  | cons p rest ih =>
    obtain ⟨k', ms⟩ := p
    by_cases hk : k' = k
    · have hkq : ¬ k' = q := by rw [hk]; exact Ne.symm h
      simp [Det.insertGrouped, Det.lookupGroup, hk, hkq, Ne.symm h]
    · by_cases hq : k' = q
      · simp [Det.insertGrouped, Det.lookupGroup, hk, hq, h]
      · simp [Det.insertGrouped, Det.lookupGroup, hk, hq, ih]

/-- Folding further messages into the groups preserves bucket membership. -/
theorem lookup_mem_preserved (msgs : List Msg) (g : List (String × List Msg))
    (k : String) (m : Msg)
    (h : ∃ ms, Det.lookupGroup g k = some ms ∧ m ∈ ms) :
    ∃ ms, Det.lookupGroup
        (msgs.foldl (fun g m => Det.insertGrouped (jsTopicKey m) m g) g) k =
      some ms ∧ m ∈ ms := by
  induction msgs generalizing g with
  | nil => exact h
  | cons m' rest ih =>
    apply ih
    obtain ⟨ms, hms, hmem⟩ := h
    by_cases hk : jsTopicKey m' = k
    · subst hk
      refine ⟨((Det.lookupGroup g (jsTopicKey m')).getD []) ++ [m'],
        lookupGroup_insertGrouped_self g (jsTopicKey m') m', ?_⟩
      rw [hms]
      exact List.mem_append_left _ hmem
    · exact ⟨ms, by
        rw [lookupGroup_insertGrouped_other g (jsTopicKey m') m' k
          (fun hc => hk hc.symm)]
        exact hms, hmem⟩

/-- Every message of the list ends up in the bucket keyed by its topic
    (`'general'` when the topic is absent or empty). -/
theorem mem_groupMessagesByTopic (msgs : List Msg) (m : Msg) (hm : m ∈ msgs) :
    ∃ ms, Det.lookupGroup (Det.groupMessagesByTopic msgs) (jsTopicKey m) =
      some ms ∧ m ∈ ms := by
  have haux : ∀ (rest : List Msg) (g : List (String × List Msg)), m ∈ rest →
      ∃ ms, Det.lookupGroup
          (rest.foldl (fun g m => Det.insertGrouped (jsTopicKey m) m g) g)
          (jsTopicKey m) = some ms ∧ m ∈ ms := by
    intro rest
    induction rest with
    | nil => intro g hc; cases hc
    | cons m' tl ih =>
      intro g hmem
      rcases List.mem_cons.mp hmem with rfl | htl
      · simp only [List.foldl_cons]
        apply lookup_mem_preserved
        refine ⟨((Det.lookupGroup g (jsTopicKey m)).getD []) ++ [m],
          lookupGroup_insertGrouped_self g (jsTopicKey m) m, ?_⟩
        exact List.mem_append_right _ (List.mem_singleton.mpr rfl)
      · simpa only [List.foldl_cons] using ih _ htl
  exact haux msgs [] hm

/-- C7: for a non-empty message list, the deterministic Structure agent's
    sections are the fixed bookends (first `Executive Summary`, last
    `Conclusion`) around exactly one capitalized section per topic group
    meeting the minimum-messages threshold (3 when the configuration does
    not set one); `topicCount` is the number of distinct topic groups, and
    every message (those without a topic under `general`) lies in its topic
    group. -/
theorem c7_structure_sections (msgs : List Msg) (cfg : AgentConfig)
    (agentId : Nat) (h : msgs ≠ []) :
    ((Det.runStructureAgent msgs cfg agentId).1.sections =
      ["Executive Summary", "Overview"] ++
        ((Det.groupMessagesByTopic msgs).filter
          (fun g => Det.minPerSection cfg ≤ g.2.length)).map (fun g => capFirst g.1) ++
        ["Next Steps", "Conclusion"]) ∧
    ((Det.runStructureAgent msgs cfg agentId).1.sections.head? =
      some "Executive Summary") ∧
    ((Det.runStructureAgent msgs cfg agentId).1.sections.getLast? =
      some "Conclusion") ∧
    ((Det.runStructureAgent msgs cfg agentId).1.topicCount =
      (Det.groupMessagesByTopic msgs).length) ∧
    (cfg.minMessagesPerSection = none → Det.minPerSection cfg = 3) ∧
    (∀ m ∈ msgs, ∃ ms,
      Det.lookupGroup (Det.groupMessagesByTopic msgs) (jsTopicKey m) = some ms ∧
        m ∈ ms) := by
  have hs : (Det.runStructureAgent msgs cfg agentId).1.sections =
      ["Executive Summary", "Overview"] ++
        ((Det.groupMessagesByTopic msgs).filter
          (fun g => Det.minPerSection cfg ≤ g.2.length)).map (fun g => capFirst g.1) ++
        ["Next Steps", "Conclusion"] := by
    simp only [Det.runStructureAgent, topicSectionsFold_fst]
  refine ⟨hs, ?_, ?_, ?_, ?_, ?_⟩
  · rw [hs]; rfl
  · rw [hs]
    rw [List.append_assoc, List.getLast?_append, List.getLast?_append]
    rfl
  · simp only [Det.runStructureAgent]
  · intro hnone; simp [Det.minPerSection, hnone]
  · intro m hm; exact mem_groupMessagesByTopic msgs m hm

/-- C7 witness: the structure-agent properties at a concrete two-topic
    message list (one topic reaching the default threshold of 3). -/
theorem c7_structure_sections_witness :
    ([⟨"user", "a", some "alpha"⟩, ⟨"assistant", "b", some "alpha"⟩,
      ⟨"user", "c", some "alpha"⟩, ⟨"user", "d", none⟩] : List Msg) ≠ [] ∧
    ((Det.runStructureAgent
        [⟨"user", "a", some "alpha"⟩, ⟨"assistant", "b", some "alpha"⟩,
         ⟨"user", "c", some "alpha"⟩, ⟨"user", "d", none⟩]
        AgentConfig.empty 1).1.sections =
      ["Executive Summary", "Overview"] ++
        ((Det.groupMessagesByTopic
          [⟨"user", "a", some "alpha"⟩, ⟨"assistant", "b", some "alpha"⟩,
           ⟨"user", "c", some "alpha"⟩, ⟨"user", "d", none⟩]).filter
          (fun g => Det.minPerSection AgentConfig.empty ≤ g.2.length)).map
            (fun g => capFirst g.1) ++
        ["Next Steps", "Conclusion"]) ∧
    ((Det.runStructureAgent
        [⟨"user", "a", some "alpha"⟩, ⟨"assistant", "b", some "alpha"⟩,
         ⟨"user", "c", some "alpha"⟩, ⟨"user", "d", none⟩]
        AgentConfig.empty 1).1.sections.head? = some "Executive Summary") ∧
    ((Det.runStructureAgent
        [⟨"user", "a", some "alpha"⟩, ⟨"assistant", "b", some "alpha"⟩,
         ⟨"user", "c", some "alpha"⟩, ⟨"user", "d", none⟩]
        AgentConfig.empty 1).1.sections.getLast? = some "Conclusion") ∧
    ((Det.runStructureAgent
        [⟨"user", "a", some "alpha"⟩, ⟨"assistant", "b", some "alpha"⟩,
         ⟨"user", "c", some "alpha"⟩, ⟨"user", "d", none⟩]
        AgentConfig.empty 1).1.topicCount =
      (Det.groupMessagesByTopic
        [⟨"user", "a", some "alpha"⟩, ⟨"assistant", "b", some "alpha"⟩,
         ⟨"user", "c", some "alpha"⟩, ⟨"user", "d", none⟩]).length) ∧
    (AgentConfig.empty.minMessagesPerSection = none →
      Det.minPerSection AgentConfig.empty = 3) ∧
    (∀ m ∈ ([⟨"user", "a", some "alpha"⟩, ⟨"assistant", "b", some "alpha"⟩,
        ⟨"user", "c", some "alpha"⟩, ⟨"user", "d", none⟩] : List Msg), ∃ ms,
      Det.lookupGroup (Det.groupMessagesByTopic
        [⟨"user", "a", some "alpha"⟩, ⟨"assistant", "b", some "alpha"⟩,
         ⟨"user", "c", some "alpha"⟩, ⟨"user", "d", none⟩]) (jsTopicKey m) =
        some ms ∧ m ∈ ms) :=
  ⟨by decide,
   c7_structure_sections
     [⟨"user", "a", some "alpha"⟩, ⟨"assistant", "b", some "alpha"⟩,
      ⟨"user", "c", some "alpha"⟩, ⟨"user", "d", none⟩]
     AgentConfig.empty 1 (by decide)⟩

/-- A prefix of agents that all dispatch successfully contributes its
    results and last-run touches and passes the error of the remaining
    agents through. -/
theorem runAgentsLoop_ok_prefix (msgs : List Msg) (pre rest : List AgentRec)
    (hpre : ∀ b ∈ pre, (Det.runAgentDet b msgs).isOk = true) :
    (Det.runAgentsLoop msgs (pre ++ rest)).err = (Det.runAgentsLoop msgs rest).err ∧
    (Det.runAgentsLoop msgs (pre ++ rest)).touched =
      pre.map (fun b => b.id) ++ (Det.runAgentsLoop msgs rest).touched := by
  induction pre with
  | nil => simp
  | cons b bs ih =>
    have hb := hpre b (List.mem_cons_self _ _)
    rcases hok : Det.runAgentDet b msgs with e | rl
    · rw [hok] at hb; simp [Except.isOk, Except.toBool] at hb
    · obtain ⟨r, logs⟩ := rl
      have hih := ih (fun x hx => hpre x (List.mem_cons_of_mem _ hx))
      simp only [List.cons_append, Det.runAgentsLoop, hok]
      simp [hih.1, hih.2]

/-- An agent whose dispatch throws stops the loop at once: the error is
    recorded and no last-run touch happens for it or any later agent. -/
theorem runAgentsLoop_error_head (msgs : List Msg) (a : AgentRec)
    (post : List AgentRec) (e : Det.OErr)
    (ha : Det.runAgentDet a msgs = .error e) :
    (Det.runAgentsLoop msgs (a :: post)).err = some e ∧
    (Det.runAgentsLoop msgs (a :: post)).touched = [] := by
  simp [Det.runAgentsLoop, ha]

/-- C10: if the enabled agents contain one whose type is none of the five
    known types (after a prefix of agents that execute without error), the
    dispatch throws `Unknown agent type`, which aborts the remaining
    agents — only the prefix's agents are touched — and forces the run to
    `failed` with no result stored, even though the agent was enabled. -/
theorem c10_unknown_agent_type_fails_run (env : Det.Env)
    (pre post : List AgentRec) (a : AgentRec)
    (h1 : env.runExists = true) (h2 : env.fileExists = true)
    (h3 : env.messages ≠ [])
    (hsplit : env.agents.filter (fun x => x.enabled) = pre ++ a :: post)
    (hunknown : a.type ∉
      ["structure", "requirements", "user_perspective", "documentation", "meta"])
    (hpre : ∀ b ∈ pre, (Det.runAgentDet b env.messages).isOk = true) :
    a.enabled = true ∧
    (Det.runAnalysis env).err = some (Det.OErr.unknownAgentType a.type) ∧
    (Det.runAnalysis env).writes =
      [.setStatus "running" none, .setStatus "failed" none] ∧
    (Det.runAnalysis env).writes.countP Det.Write.isComplete = 0 ∧
    (Det.runAnalysis env).touched = pre.map (fun b => b.id) := by
  rcases env with ⟨re, fe, msgs, ags⟩
  simp only at h1 h2 h3 hsplit hpre
  subst h1; subst h2
  have henabled : a.enabled = true := by
    have hmem : a ∈ ags.filter (fun x => x.enabled) := by
      rw [hsplit]; exact List.mem_append_right _ (List.mem_cons_self _ _)
    exact List.of_mem_filter hmem
  have hne : a.type ≠ "structure" ∧ a.type ≠ "requirements" ∧
      a.type ≠ "user_perspective" ∧ a.type ≠ "documentation" ∧ a.type ≠ "meta" := by
    simpa [not_or] using hunknown
  obtain ⟨n1, n2, n3, n4, n5⟩ := hne
  rcases msgs with _ | ⟨m, ms⟩
  · exact absurd rfl h3
  · have hdisp : Det.runAgentDet a (m :: ms) = .error (.unknownAgentType a.type) := by
      simp [Det.runAgentDet, n1, n2, n3, n4, n5]
    have hloop1 := runAgentsLoop_ok_prefix (m :: ms) pre (a :: post) hpre
    have hloop2 := runAgentsLoop_error_head (m :: ms) a post _ hdisp
    have herr : (Det.runAgentsLoop (m :: ms)
        (ags.filter (fun x => x.enabled))).err =
        some (Det.OErr.unknownAgentType a.type) := by
      rw [hsplit, hloop1.1, hloop2.1]
    have htouch : (Det.runAgentsLoop (m :: ms)
        (ags.filter (fun x => x.enabled))).touched = pre.map (fun b => b.id) := by
      rw [hsplit, hloop1.2, hloop2.2, List.append_nil]
    refine ⟨henabled, ?_, ?_, ?_, ?_⟩ <;>
      simp [Det.runAnalysis, herr, htouch, Det.Write.isComplete, List.countP,
        List.countP.go]

/-- C10 witness: a single enabled agent of unknown type `alien`. -/
theorem c10_unknown_agent_type_witness :
    (Det.Env.mk true true [⟨"user", "hi", none⟩]
        [⟨1, "Bogus", "alien", true, AgentConfig.empty⟩]).runExists = true ∧
    (Det.Env.mk true true [⟨"user", "hi", none⟩]
        [⟨1, "Bogus", "alien", true, AgentConfig.empty⟩]).fileExists = true ∧
    (Det.Env.mk true true [⟨"user", "hi", none⟩]
        [⟨1, "Bogus", "alien", true, AgentConfig.empty⟩]).messages ≠ [] ∧
    (Det.Env.mk true true [⟨"user", "hi", none⟩]
        [⟨1, "Bogus", "alien", true, AgentConfig.empty⟩]).agents.filter
      (fun x => x.enabled) =
      [] ++ (⟨1, "Bogus", "alien", true, AgentConfig.empty⟩ : AgentRec) :: [] ∧
    ((⟨1, "Bogus", "alien", true, AgentConfig.empty⟩ : AgentRec).type ∉
      (["structure", "requirements", "user_perspective", "documentation",
        "meta"] : List String)) ∧
    ((⟨1, "Bogus", "alien", true, AgentConfig.empty⟩ : AgentRec).enabled = true ∧
      (Det.runAnalysis (Det.Env.mk true true [⟨"user", "hi", none⟩]
          [⟨1, "Bogus", "alien", true, AgentConfig.empty⟩])).err =
        some (Det.OErr.unknownAgentType
          (⟨1, "Bogus", "alien", true, AgentConfig.empty⟩ : AgentRec).type) ∧
      (Det.runAnalysis (Det.Env.mk true true [⟨"user", "hi", none⟩]
          [⟨1, "Bogus", "alien", true, AgentConfig.empty⟩])).writes =
        [.setStatus "running" none, .setStatus "failed" none] ∧
      (Det.runAnalysis (Det.Env.mk true true [⟨"user", "hi", none⟩]
          [⟨1, "Bogus", "alien", true, AgentConfig.empty⟩])).writes.countP
        Det.Write.isComplete = 0 ∧
      (Det.runAnalysis (Det.Env.mk true true [⟨"user", "hi", none⟩]
          [⟨1, "Bogus", "alien", true, AgentConfig.empty⟩])).touched =
        ([] : List AgentRec).map (fun b => b.id)) :=
  ⟨rfl, rfl, by decide, by decide, by decide,
   c10_unknown_agent_type_fails_run
     (Det.Env.mk true true [⟨"user", "hi", none⟩]
       [⟨1, "Bogus", "alien", true, AgentConfig.empty⟩])
     [] [] ⟨1, "Bogus", "alien", true, AgentConfig.empty⟩
     rfl rfl (by decide) (by decide) (by decide)
     (by intro b hb; cases hb)⟩

/-- Every fallback result carries the `fallbackUsed: true` marker. -/
theorem aioFallbackResult_fallbackUsed (a : AgentRec) (msgs : List Msg) :
    (aioFallbackResult a msgs).getField "fallbackUsed" = some (.boolV true) := by
  unfold aioFallbackResult
  split_ifs <;>
    simp [Aio.runStructureAgentFallback, Aio.runRequirementsAgentFallback,
      Aio.runUserPerspectiveAgentFallback, Aio.runDocumentationAgentFallback,
      Aio.runMetaAgentFallback, Json.getField]

/-- With the gateway failing, each known-type AI agent succeeds with its
    deterministic fallback result after writing a `warn` log. -/
theorem aio_runAgent_gateway_fail (aiEnv : Gateway.AIEnv) (a : AgentRec)
    (msgs : List Msg)
    (hknown : a.type = "structure" ∨ a.type = "requirements" ∨
      a.type = "user_perspective" ∨ a.type = "documentation" ∨ a.type = "meta")
    (hfail : ∀ p : Option Gateway.Provider, ∃ e,
      Gateway.smartCall aiEnv p = .error e) :
    ∃ logs, Aio.runAgent aiEnv a msgs = .ok (aioFallbackResult a msgs, logs) ∧
      ∃ w, (⟨some a.id, "warn", w⟩ : LogEntry) ∈ logs := by
  rcases hknown with ht | ht | ht | ht | ht
  · obtain ⟨e, he⟩ := hfail (some .openai)
    exact ⟨[⟨some a.id, "info", "Processing " ++ toString msgs.length ++ " messages"⟩,
        Aio.gatewayFailWarn a.id e],
      by simp [Aio.runAgent, aioFallbackResult, ht, Aio.runStructureAgent, he],
      "AI analysis failed, using fallback: Error: " ++ e,
      by simp [Aio.gatewayFailWarn]⟩
  · obtain ⟨e, he⟩ := hfail (some .openai)
    exact ⟨[Aio.gatewayFailWarn a.id e],
      by simp [Aio.runAgent, aioFallbackResult, ht, Aio.runRequirementsAgent, he],
      "AI analysis failed, using fallback: Error: " ++ e,
      by simp [Aio.gatewayFailWarn]⟩
  · obtain ⟨e, he⟩ := hfail (some .anthropic)
    exact ⟨[Aio.gatewayFailWarn a.id e],
      by simp [Aio.runAgent, aioFallbackResult, ht, Aio.runUserPerspectiveAgent, he],
      "AI analysis failed, using fallback: Error: " ++ e,
      by simp [Aio.gatewayFailWarn]⟩
  · obtain ⟨e, he⟩ := hfail (some .anthropic)
    exact ⟨[Aio.gatewayFailWarn a.id e],
      by simp [Aio.runAgent, aioFallbackResult, ht, Aio.runDocumentationAgent, he],
      "AI analysis failed, using fallback: Error: " ++ e,
      by simp [Aio.gatewayFailWarn]⟩
  · obtain ⟨e, he⟩ := hfail (some .anthropic)
    exact ⟨[Aio.gatewayFailWarn a.id e],
      by simp [Aio.runAgent, aioFallbackResult, ht, Aio.runMetaAgent, he],
      "AI analysis failed, using fallback: Error: " ++ e,
      by simp [Aio.gatewayFailWarn]⟩

/-- The AI orchestrator's agent loop under a failing gateway: no error,
    every stored result is the agent's fallback, every agent has a `warn`
    log entry. -/
theorem aio_loop_allfail (aiEnvs : Nat → Gateway.AIEnv) (msgs : List Msg)
    (hfail : ∀ i (p : Option Gateway.Provider), ∃ e,
      Gateway.smartCall (aiEnvs i) p = .error e)
    (agents : List AgentRec)
    (hknown : ∀ a ∈ agents, a.type = "structure" ∨ a.type = "requirements" ∨
      a.type = "user_perspective" ∨ a.type = "documentation" ∨ a.type = "meta") :
    ∀ i, (Aio.runAgentsLoop aiEnvs msgs i agents).err = none ∧
      (Aio.runAgentsLoop aiEnvs msgs i agents).results =
        agents.map (fun a => (a.type, aioFallbackResult a msgs)) ∧
      ∀ a ∈ agents, ∃ w, (⟨some a.id, "warn", w⟩ : LogEntry) ∈
        (Aio.runAgentsLoop aiEnvs msgs i agents).logs := by
  induction agents with
  | nil => intro i; exact ⟨rfl, rfl, by intro a ha; cases ha⟩
  | cons a rest ih =>
    intro i
    obtain ⟨logs, hagent, w, hw⟩ :=
      aio_runAgent_gateway_fail (aiEnvs i) a msgs
        (hknown a (List.mem_cons_self _ _)) (hfail i)
    have hih := ih (fun b hb => hknown b (List.mem_cons_of_mem _ hb)) (i + 1)
    simp only [Aio.runAgentsLoop, hagent]
    refine ⟨hih.1, by simp [hih.2.1], ?_⟩
    intro b hb
    rcases List.mem_cons.mp hb with rfl | hbr
    · exact ⟨w, by simp [hw]⟩
    · obtain ⟨w', hw'⟩ := hih.2.2 b hbr
      exact ⟨w', by simp [hw']⟩

/-- C1: when every Remote Model Gateway call fails, every AI-augmented
    agent still returns a well-formed result — exactly its deterministic
    fallback, marked `fallbackUsed: true` — after a `warn` log, the failure
    never propagates past the agent, and the run reaches `completed` with
    the fallback aggregate as its result. -/
theorem c1_gateway_failure_still_completes (env : Aio.Env)
    (h1 : env.runExists = true) (h2 : env.fileExists = true)
    (h3 : env.messages ≠ [])
    (hknown : ∀ a ∈ env.agents.filter (fun x => x.enabled),
      a.type = "structure" ∨ a.type = "requirements" ∨
      a.type = "user_perspective" ∨ a.type = "documentation" ∨ a.type = "meta")
    (hfail : ∀ i (p : Option Gateway.Provider), ∃ e,
      Gateway.smartCall (env.aiEnvs i) p = .error e) :
    (Aio.runAnalysis env).err = none ∧
    (Aio.runAnalysis env).writes.map Aio.WriteA.statusOf = ["running", "completed"] ∧
    (Aio.runAnalysis env).writes =
      [.setStatus "running",
       .complete ((env.agents.filter (fun x => x.enabled)).map
         (fun a => (a.type, aioFallbackResult a env.messages)))] ∧
    (∀ a ∈ env.agents.filter (fun x => x.enabled), ∃ w,
      (⟨some a.id, "warn", w⟩ : LogEntry) ∈ (Aio.runAnalysis env).logs) ∧
    (∀ a ∈ env.agents.filter (fun x => x.enabled),
      (aioFallbackResult a env.messages).getField "fallbackUsed" =
        some (.boolV true)) := by
  rcases env with ⟨re, fe, msgs, ags, aiEnvs⟩
  simp only at h1 h2 h3 hknown hfail
  subst h1; subst h2
  rcases msgs with _ | ⟨m, ms⟩
  · exact absurd rfl h3
  · have hloop := aio_loop_allfail aiEnvs (m :: ms) hfail
      (ags.filter (fun x => x.enabled)) hknown 0
    refine ⟨?_, ?_, ?_, ?_, fun a _ => aioFallbackResult_fallbackUsed a (m :: ms)⟩
    · simp [Aio.runAnalysis, hloop.1]
    · simp [Aio.runAnalysis, hloop.1, Aio.WriteA.statusOf]
    · simp [Aio.runAnalysis, hloop.1, hloop.2.1]
    · intro a ha
      obtain ⟨w, hw⟩ := hloop.2.2 a ha
      exact ⟨w, by simp [Aio.runAnalysis, hloop.1, hw]⟩

/-- C1 witness: the theorem applied at `c1WitnessEnv`. -/
theorem c1_gateway_failure_still_completes_witness :
    c1WitnessEnv.runExists = true ∧
    c1WitnessEnv.fileExists = true ∧
    c1WitnessEnv.messages ≠ [] ∧
    (∀ a ∈ c1WitnessEnv.agents.filter (fun x => x.enabled),
      a.type = "structure" ∨ a.type = "requirements" ∨
      a.type = "user_perspective" ∨ a.type = "documentation" ∨ a.type = "meta") ∧
    (∀ i (p : Option Gateway.Provider), ∃ e,
      Gateway.smartCall (c1WitnessEnv.aiEnvs i) p = .error e) ∧
    ((Aio.runAnalysis c1WitnessEnv).err = none ∧
      (Aio.runAnalysis c1WitnessEnv).writes.map Aio.WriteA.statusOf =
        ["running", "completed"] ∧
      (Aio.runAnalysis c1WitnessEnv).writes =
        [.setStatus "running",
         .complete ((c1WitnessEnv.agents.filter (fun x => x.enabled)).map
           (fun a => (a.type, aioFallbackResult a c1WitnessEnv.messages)))] ∧
      (∀ a ∈ c1WitnessEnv.agents.filter (fun x => x.enabled), ∃ w,
        (⟨some a.id, "warn", w⟩ : LogEntry) ∈ (Aio.runAnalysis c1WitnessEnv).logs) ∧
      (∀ a ∈ c1WitnessEnv.agents.filter (fun x => x.enabled),
        (aioFallbackResult a c1WitnessEnv.messages).getField "fallbackUsed" =
          some (.boolV true))) :=
  ⟨rfl, rfl, by decide, by decide,
   fun i p => ⟨"No AI providers configured",
     by rcases p with _ | p
        · rfl
        · cases p <;> rfl⟩,
   c1_gateway_failure_still_completes c1WitnessEnv rfl rfl (by decide) (by decide)
     (fun i p => ⟨"No AI providers configured",
       by rcases p with _ | p
          · rfl
          · cases p <;> rfl⟩)⟩

/-- C8 counterexample: on a gateway response that is not directly parseable
    JSON but contains a parseable balanced brace block, the AI structure
    agent does not recover by extracting the block — it treats the response
    as a failure and returns the deterministic fallback (marked
    `fallbackUsed`). -/
theorem c8_brace_extraction_counterexample :
    jsonParse c8Resp = none ∧
    firstBraceBlock c8Resp = some "\x7b\"sections\": [\"Intro\"]\x7d" ∧
    (jsonParse "\x7b\"sections\": [\"Intro\"]\x7d").isSome = true ∧
    Gateway.smartCall ⟨true, false, .ok c8Resp, .error "x"⟩ (some .openai) =
      .ok ⟨c8Resp, "gpt-4", .openai⟩ ∧
    (Aio.runStructureAgent ⟨true, false, .ok c8Resp, .error "x"⟩
        [⟨"user", "hi", none⟩] AgentConfig.empty 1).1 =
      Aio.runStructureAgentFallback [⟨"user", "hi", none⟩] AgentConfig.empty ∧
    (Aio.runStructureAgent ⟨true, false, .ok c8Resp, .error "x"⟩
        [⟨"user", "hi", none⟩] AgentConfig.empty 1).1.getField "fallbackUsed" =
      some (.boolV true) :=
  ⟨rfl, rfl, rfl, rfl, rfl, rfl⟩

/-- C8 (amended): a gateway response whose text fails direct `JSON.parse`
    is treated as an AI failure by every AI-augmented agent: the agent logs
    a `warn` and falls back to its deterministic method; no brace-block
    extraction is attempted (the orchestrators contain none). -/
theorem c8_parse_failure_falls_back (aiEnv : Gateway.AIEnv) (msgs : List Msg)
    (cfg : AgentConfig) (agentId : Nat) (resp respA : Gateway.AIResponse)
    (hok : Gateway.smartCall aiEnv (some .openai) = .ok resp)
    (hokA : Gateway.smartCall aiEnv (some .anthropic) = .ok respA)
    (hparse : jsonParse resp.content = none)
    (hparseA : jsonParse respA.content = none) :
    ((Aio.runStructureAgent aiEnv msgs cfg agentId).1 =
        Aio.runStructureAgentFallback msgs cfg ∧
      Aio.parseFailWarn agentId ∈ (Aio.runStructureAgent aiEnv msgs cfg agentId).2) ∧
    ((Aio.runRequirementsAgent aiEnv msgs cfg agentId).1 =
        Aio.runRequirementsAgentFallback msgs cfg ∧
      Aio.parseFailWarn agentId ∈ (Aio.runRequirementsAgent aiEnv msgs cfg agentId).2) ∧
    ((Aio.runUserPerspectiveAgent aiEnv msgs cfg agentId).1 =
        Aio.runUserPerspectiveAgentFallback msgs cfg ∧
      Aio.parseFailWarn agentId ∈ (Aio.runUserPerspectiveAgent aiEnv msgs cfg agentId).2) ∧
    ((Aio.runDocumentationAgent aiEnv msgs cfg agentId).1 =
        Aio.runDocumentationAgentFallback msgs cfg ∧
      Aio.parseFailWarn agentId ∈ (Aio.runDocumentationAgent aiEnv msgs cfg agentId).2) ∧
    ((Aio.runMetaAgent aiEnv msgs cfg agentId).1 =
        Aio.runMetaAgentFallback msgs cfg ∧
      Aio.parseFailWarn agentId ∈ (Aio.runMetaAgent aiEnv msgs cfg agentId).2) := by
  refine ⟨⟨?_, ?_⟩, ⟨?_, ?_⟩, ⟨?_, ?_⟩, ⟨?_, ?_⟩, ⟨?_, ?_⟩⟩ <;>
    simp [Aio.runStructureAgent, Aio.runRequirementsAgent,
      Aio.runUserPerspectiveAgent, Aio.runDocumentationAgent, Aio.runMetaAgent,
      hok, hokA, hparse, hparseA]

/-- C8 witness: the amended behavior at a concrete unparseable response. -/
theorem c8_parse_failure_falls_back_witness :
    Gateway.smartCall ⟨true, true, .ok "NOPE", .ok "NOPE"⟩ (some .openai) =
      .ok ⟨"NOPE", "gpt-4", .openai⟩ ∧
    Gateway.smartCall ⟨true, true, .ok "NOPE", .ok "NOPE"⟩ (some .anthropic) =
      .ok ⟨"NOPE", "claude-3-5-sonnet-20241022", .anthropic⟩ ∧
    jsonParse (Gateway.AIResponse.mk "NOPE" "gpt-4" .openai).content = none ∧
    ((Aio.runStructureAgent ⟨true, true, .ok "NOPE", .ok "NOPE"⟩
        [⟨"user", "hi", none⟩] AgentConfig.empty 1).1 =
      Aio.runStructureAgentFallback [⟨"user", "hi", none⟩] AgentConfig.empty ∧
      Aio.parseFailWarn 1 ∈ (Aio.runStructureAgent
        ⟨true, true, .ok "NOPE", .ok "NOPE"⟩
        [⟨"user", "hi", none⟩] AgentConfig.empty 1).2) :=
  ⟨rfl, rfl, rfl,
   (c8_parse_failure_falls_back ⟨true, true, .ok "NOPE", .ok "NOPE"⟩
     [⟨"user", "hi", none⟩] AgentConfig.empty 1
     ⟨"NOPE", "gpt-4", .openai⟩ ⟨"NOPE", "claude-3-5-sonnet-20241022", .anthropic⟩
     rfl rfl rfl rfl).1⟩

/-- C9: in the broken orchestrator's output stage, a docx renderer throw is
    caught locally — a `warn` log names the Word failure, only the docx
    artifact is missing, and the run still completes — whereas a markdown
    or html renderer throw escapes and is fatal to the run. -/
theorem c9_optional_format_failure_recovered :
    (∀ env : Broken.Env,
      env.runExists = true → env.fileExists = true → env.messages ≠ [] →
      (Broken.runAgentsLoop env.aiEnvs env.messages 0
        (env.agents.filter (fun x => x.enabled))).err = none →
      env.markdownR = .ok () → env.htmlR = .ok () → env.latexR = .ok () →
      env.wikiR = .ok () →
      ∀ e, env.wordR = .error e →
        (Broken.runAnalysis env).err = none ∧
        (Broken.runAnalysis env).writes.map Aio.WriteA.statusOf =
          ["running", "completed"] ∧
        (Broken.runAnalysis env).artifactFormats =
          ["markdown", "html", "latex", "wiki", "json"] ∧
        (⟨none, "warn", "Word generation failed: " ++ e⟩ : LogEntry) ∈
          (Broken.runAnalysis env).logs) ∧
    (∀ env : Broken.Env,
      env.runExists = true → env.fileExists = true → env.messages ≠ [] →
      (Broken.runAgentsLoop env.aiEnvs env.messages 0
        (env.agents.filter (fun x => x.enabled))).err = none →
      ∀ e, env.markdownR = .error e →
        (Broken.runAnalysis env).err = some e ∧
        (Broken.runAnalysis env).writes.map Aio.WriteA.statusOf =
          ["running", "failed"]) ∧
    (∀ env : Broken.Env,
      env.runExists = true → env.fileExists = true → env.messages ≠ [] →
      (Broken.runAgentsLoop env.aiEnvs env.messages 0
        (env.agents.filter (fun x => x.enabled))).err = none →
      env.markdownR = .ok () →
      ∀ e, env.htmlR = .error e →
        (Broken.runAnalysis env).err = some e ∧
        (Broken.runAnalysis env).writes.map Aio.WriteA.statusOf =
          ["running", "failed"]) := by
  refine ⟨?_, ?_, ?_⟩
  · rintro ⟨re, fe, msgs, ags, ai, md, ht, lx, wk, wd⟩ h1 h2 h3 hloop hmd hht hlx hwk e hwd
    simp only at h1 h2 h3 hloop hmd hht hlx hwk hwd
    subst h1; subst h2; subst hmd; subst hht; subst hlx; subst hwk; subst hwd
    rcases msgs with _ | ⟨m, ms⟩
    · exact absurd rfl h3
    · refine ⟨?_, ?_, ?_, ?_⟩ <;>
        simp [Broken.runAnalysis, Broken.outputStage, hloop, Aio.WriteA.statusOf]
  · rintro ⟨re, fe, msgs, ags, ai, md, ht, lx, wk, wd⟩ h1 h2 h3 hloop e hmd
    simp only at h1 h2 h3 hloop hmd
    subst h1; subst h2; subst hmd
    rcases msgs with _ | ⟨m, ms⟩
    · exact absurd rfl h3
    · refine ⟨?_, ?_⟩ <;>
        simp [Broken.runAnalysis, Broken.outputStage, hloop, Aio.WriteA.statusOf]
  · rintro ⟨re, fe, msgs, ags, ai, md, ht, lx, wk, wd⟩ h1 h2 h3 hloop hmd e hht
    simp only at h1 h2 h3 hloop hmd hht
    subst h1; subst h2; subst hmd; subst hht
    rcases msgs with _ | ⟨m, ms⟩
    · exact absurd rfl h3
    · refine ⟨?_, ?_⟩ <;>
        simp [Broken.runAnalysis, Broken.outputStage, hloop, Aio.WriteA.statusOf]

/-- C9 witness: the docx-failure recovery and the markdown fatality at
    concrete environments. -/
theorem c9_optional_format_failure_witness :
    (c9WitnessEnvA.messages ≠ [] ∧
      (Broken.runAgentsLoop c9WitnessEnvA.aiEnvs c9WitnessEnvA.messages 0
        (c9WitnessEnvA.agents.filter (fun x => x.enabled))).err = none ∧
      c9WitnessEnvA.wordR = .error "docx exploded" ∧
      ((Broken.runAnalysis c9WitnessEnvA).err = none ∧
        (Broken.runAnalysis c9WitnessEnvA).writes.map Aio.WriteA.statusOf =
          ["running", "completed"] ∧
        (Broken.runAnalysis c9WitnessEnvA).artifactFormats =
          ["markdown", "html", "latex", "wiki", "json"] ∧
        (⟨none, "warn", "Word generation failed: " ++ "docx exploded"⟩ : LogEntry) ∈
          (Broken.runAnalysis c9WitnessEnvA).logs)) ∧
    (c9WitnessEnvB.markdownR = .error "md exploded" ∧
      ((Broken.runAnalysis c9WitnessEnvB).err = some "md exploded" ∧
        (Broken.runAnalysis c9WitnessEnvB).writes.map Aio.WriteA.statusOf =
          ["running", "failed"])) :=
  ⟨⟨by decide, rfl, rfl,
    c9_optional_format_failure_recovered.1 c9WitnessEnvA rfl rfl (by decide) rfl
      rfl rfl rfl rfl "docx exploded" rfl⟩,
   ⟨rfl,
    c9_optional_format_failure_recovered.2.1 c9WitnessEnvB rfl rfl (by decide) rfl
      "md exploded" rfl⟩⟩

/-- C6 counterexample: a single message containing two requirement
    sentences ("It must work. It should run.") yields a requirement density
    of 2, outside the claimed interval [0, 1]. -/
theorem c6_density_counterexample :
    Det.requirementDensity [⟨"user", "It must work. It should run.", none⟩] = 2 ∧
    ¬ (Det.requirementDensity [⟨"user", "It must work. It should run.", none⟩] ≤ 1) := by
  have h2 : (Det.extractRequirements
      [⟨"user", "It must work. It should run.", none⟩]).length = 2 := by decide
  have hd : Det.requirementDensity
      [⟨"user", "It must work. It should run.", none⟩] = 2 := by
    unfold Det.requirementDensity
    rw [h2]
    norm_num
  exact ⟨hd, by rw [hd]; norm_num⟩

/-- C6 (amended): for every non-empty message list, the deterministic
    Requirements agent's `requirementDensity` equals the count of extracted
    requirement matches divided by the message count and is never negative
    (not NaN, being an exact rational); it is not bounded by 1 in general,
    because one message may contribute several matching sentences. -/
theorem c6_requirement_density_amended (msgs : List Msg) (cfg : AgentConfig)
    (agentId : Nat) (h : msgs ≠ []) :
    (Det.runRequirementsAgent msgs cfg agentId).1.requirementDensity =
      ((Det.extractRequirements msgs).length : ℚ) / (msgs.length : ℚ) ∧
    0 ≤ (Det.runRequirementsAgent msgs cfg agentId).1.requirementDensity := by
  constructor
  · rfl
  · show (0 : ℚ) ≤ Det.requirementDensity msgs
    unfold Det.requirementDensity
    positivity

/-- C6 witness: the amended statement at a concrete one-message list. -/
theorem c6_requirement_density_witness :
    ([⟨"user", "It must work. It should run.", none⟩] : List Msg) ≠ [] ∧
    ((Det.runRequirementsAgent [⟨"user", "It must work. It should run.", none⟩]
        AgentConfig.empty 1).1.requirementDensity =
      ((Det.extractRequirements
        [⟨"user", "It must work. It should run.", none⟩]).length : ℚ) /
        (([⟨"user", "It must work. It should run.", none⟩] : List Msg).length : ℚ) ∧
     0 ≤ (Det.runRequirementsAgent [⟨"user", "It must work. It should run.", none⟩]
        AgentConfig.empty 1).1.requirementDensity) :=
  ⟨by decide,
   c6_requirement_density_amended [⟨"user", "It must work. It should run.", none⟩]
     AgentConfig.empty 1 (by decide)⟩

end Odyc
